import Mathlib

set_option maxRecDepth 10000

/-!
Verification development for the Melbourne parking query engine
(`backend/api/parking_routes.py`).

The three HTTP query operations are shallowly embedded here:
* `get_current_parking_status` — the `/current` balanced map sampler;
* `get_streets_list`           — the `/streets` per-street aggregator;
* `find_nearby_parking`        — the `/nearby` nearest-available search.

Modelling conventions:
* Numeric columns and parsed query parameters are idealised as exact
  arithmetic: database decimals and parsed floats become `ℚ`, Python `int`
  becomes `ℤ`, and the trigonometric distance computation is carried out
  over `ℝ` (floating-point artefacts are out of scope).
* The two stores are a snapshot: a list of `ParkingBay` rows and a list of
  `ParkingStatusCurrent` rows, in a fixed deterministic order.  SQL queries
  are modelled as list traversals of the snapshot in that order: an inner
  join enumerates bay rows in order and pairs each with its matching status
  rows, `DISTINCT` and `GROUP BY` keep the first occurrence of each key,
  `ORDER BY` (and Python's stable `list.sort`) is a stable sort
  (`List.insertionSort`, which agrees with every stable sort for a total
  preorder), and `LIMIT n` is `List.take n`.
* `request.args.get` results are modelled by small argument types recording
  whether the parameter was absent, present but unparsable, or a value.
-/

/-- A row of the `parking_bays` table.  Modelled from the spec: the
SQLAlchemy model class `ParkingBay` (file `models/parking.py`) is not part
of the sources; its fields are taken from §3 of the spec (`Bay`) and from
the columns used by `parking_routes.py` and the ingestion scripts
(`kerbside_id`, `latitude`, `longitude`, `road_segment_id`,
`road_segment_description`). -/
structure ParkingBay where
  kerbside_id : ℤ
  latitude : ℚ
  longitude : ℚ
  road_segment_id : Option ℤ
  road_segment_description : Option String
deriving DecidableEq, Repr

/-- A row of the `parking_status_current` table.  Modelled from the spec:
the model class `ParkingStatusCurrent` is not part of the sources; its
fields are taken from §3 of the spec (`StatusRecord`) and from the columns
used by `parking_routes.py` (`kerbside_id`, `status_description`,
`zone_number`). -/
structure ParkingStatusCurrent where
  kerbside_id : ℤ
  status_description : String
  zone_number : Option ℤ
deriving DecidableEq, Repr

/-- A data snapshot: the contents of the two tables read by the engine. -/
structure Snapshot where
  bays : List ParkingBay
  statuses : List ParkingStatusCurrent
deriving DecidableEq, Repr

/-- The inner join `ParkingBay JOIN ParkingStatusCurrent ON kerbside_id =
kerbside_id`, used identically by all three routes.  Bay rows are
enumerated in snapshot order; each is paired with every matching status
row. -/
def joinedRows (db : Snapshot) : List (ParkingBay × ParkingStatusCurrent) :=
  db.bays.flatMap fun b =>
    (db.statuses.filter fun s => s.kerbside_id == b.kerbside_id).map fun s => (b, s)

/-- First-occurrence deduplication, modelling SQL `DISTINCT` / `GROUP BY`
over a deterministic row order: scan the rows once, keeping each key the
first time it is seen. -/
def distinctList (l : List String) : List String :=
  l.foldl (fun acc a => if a ∈ acc then acc else acc ++ [a]) []

/-- The `bounds` query parameter of `/current`: absent (or empty, which
`if bounds:` also skips), present but unparsable (the `except` branch
ignores it), or four parsed floats `lat1,lng1,lat2,lng2`. -/
inductive BoundsArg where
  | absent : BoundsArg
  | malformed : BoundsArg
  | value (lat1 lng1 lat2 lng2 : ℚ) : BoundsArg
deriving DecidableEq, Repr

/-- The geographic filter applied when `bounds` parses:
`latitude BETWEEN min(lat1,lat2) AND max(lat1,lat2)` and likewise for
longitude; no filter otherwise. -/
def boundsFilter (b : BoundsArg) (bay : ParkingBay) : Bool :=
  match b with
  | .value lat1 lng1 lat2 lng2 =>
      decide (min lat1 lat2 ≤ bay.latitude) && decide (bay.latitude ≤ max lat1 lat2) &&
      decide (min lng1 lng2 ≤ bay.longitude) && decide (bay.longitude ≤ max lng1 lng2)
  | _ => true

/-- The street-name query of `/current`: joined rows whose
`road_segment_description` is not null (and which pass the bounds filter),
projected to the description, `DISTINCT`. -/
def streetNamesQuery (rows : List (ParkingBay × ParkingStatusCurrent))
    (bounds : BoundsArg) : List String :=
  distinctList (rows.filterMap fun bs =>
    if boundsFilter bounds bs.1 then bs.1.road_segment_description else none)

/-- The per-street query of `/current`: joined rows with
`road_segment_description == street_name`, plus the bounds filter. -/
def streetRows (rows : List (ParkingBay × ParkingStatusCurrent))
    (bounds : BoundsArg) (name : String) : List (ParkingBay × ParkingStatusCurrent) :=
  rows.filter fun bs =>
    bs.1.road_segment_description == some name && boundsFilter bounds bs.1

/-- One element of the `data` array returned by `/current`. -/
structure CurrentRecord where
  kerbside_id : ℤ
  latitude : ℚ
  longitude : ℚ
  status : String
  road_segment : Option String
  zone_number : Option ℤ
deriving DecidableEq, Repr

/-- The dictionary built for each `(bay, status)` pair by `/current`. -/
def toCurrentRecord (bs : ParkingBay × ParkingStatusCurrent) : CurrentRecord :=
  { kerbside_id := bs.1.kerbside_id
    latitude := bs.1.latitude
    longitude := bs.1.longitude
    status := bs.2.status_description
    road_segment := bs.1.road_segment_description
    zone_number := bs.2.zone_number }

/-- The street-visiting loop of `/current`: for each street name in order,
stop if the remaining budget is exhausted, otherwise draw up to
`min(bays_per_street, remaining_limit)` rows of that street and decrement
the remaining budget by the number of rows actually drawn. -/
def sampleLoop (rows : List (ParkingBay × ParkingStatusCurrent)) (bounds : BoundsArg)
    (bays_per_street : ℤ) : List String → ℤ → List CurrentRecord
  | [], _ => []
  | name :: rest, remaining_limit =>
    if remaining_limit ≤ 0 then []
    else
      ((streetRows rows bounds name).take (min bays_per_street remaining_limit).toNat).map
          toCurrentRecord ++
        sampleLoop rows bounds bays_per_street rest
          (remaining_limit -
            ((streetRows rows bounds name).take (min bays_per_street remaining_limit).toNat).length)

/-- The `distribution_info` object of the `/current` response. -/
structure DistributionInfo where
  total_streets : ℕ
  target_bays_per_street : ℤ
  actual_bays_returned : ℕ
deriving DecidableEq, Repr

/-- The `/current` response body. -/
structure CurrentResponse where
  success : Bool
  count : ℕ
  data : List CurrentRecord
  distribution_info : DistributionInfo
deriving DecidableEq, Repr

/-- The `bays_per_street` computation of `/current`:
`max(2, limit // len(street_names))` when there is at least one street,
else `limit`.  Python `//` on `int` is floor division, i.e. `Int.fdiv`. -/
def currentQuota (streetCount : ℕ) (limit : ℤ) : ℤ :=
  if 0 < streetCount then max 2 (Int.fdiv limit streetCount) else limit

/-- The `data` list assembled by `/current`: the sampling loop run over the
distinct street list with the quota and the full budget. -/
def currentData (db : Snapshot) (limitArg : Option ℤ) (bounds : BoundsArg) :
    List CurrentRecord :=
  sampleLoop (joinedRows db) bounds
    (currentQuota (streetNamesQuery (joinedRows db) bounds).length (limitArg.getD 1500))
    (streetNamesQuery (joinedRows db) bounds) (limitArg.getD 1500)

/-- The `/current` route: optional `limit` (default 1500), optional
`bounds`; computes the distinct street list, the per-street quota, runs
the sampling loop, and answers HTTP 200. -/
def get_current_parking_status (db : Snapshot) (limitArg : Option ℤ)
    (bounds : BoundsArg) : ℕ × CurrentResponse :=
  (200,
    { success := true
      count := (currentData db limitArg bounds).length
      data := currentData db limitArg bounds
      distribution_info :=
        { total_streets := (streetNamesQuery (joinedRows db) bounds).length
          target_bays_per_street :=
            currentQuota (streetNamesQuery (joinedRows db) bounds).length (limitArg.getD 1500)
          actual_bays_returned := (currentData db limitArg bounds).length } })

/-- Python's `round` (banker's rounding, ties to even) on an exact rational,
as an integer result. -/
def pyRoundQ (x : ℚ) : ℤ :=
  if Int.fract x = 1 / 2 then (if Even ⌊x⌋ then ⌊x⌋ else ⌊x⌋ + 1) else round x

/-- Python's `round(x, 1)` on an exact rational. -/
def pyRound1Q (x : ℚ) : ℚ := (pyRoundQ (10 * x) : ℚ) / 10

/-- One element of the `/streets` response array. -/
structure StreetRecord where
  street_name : String
  total_bays : ℕ
  available_bays : ℕ
  occupied_bays : ℤ
  occupancy_rate : ℚ
deriving DecidableEq, Repr

/-- The grouped street query of `/streets`: distinct non-null street names
with their joined-row counts, `ORDER BY count DESC` (stable sort; no
secondary sort key appears in the query) then `LIMIT 50`. -/
def streetsData (db : Snapshot) : List (String × ℕ) :=
  (((distinctList ((joinedRows db).filterMap fun bs => bs.1.road_segment_description)).map
      fun n =>
        (n, ((joinedRows db).filter fun bs => bs.1.road_segment_description == some n).length)
    ).insertionSort fun a b => b.2 ≤ a.2).take 50

/-- The per-street availability count of `/streets`: joined rows of the
street whose `status_description` is exactly `'Unoccupied'`. -/
def availableCount (db : Snapshot) (name : String) : ℕ :=
  ((joinedRows db).filter fun bs =>
    bs.1.road_segment_description == some name &&
    bs.2.status_description == "Unoccupied").length

/-- The record built for one street by `/streets`: totals, available and
occupied counts, and the occupancy rate `round(occupied / total * 100, 1)`
(0 when `total` is 0). -/
def streetRecordOf (db : Snapshot) (p : String × ℕ) : StreetRecord :=
  { street_name := p.1
    total_bays := p.2
    available_bays := availableCount db p.1
    occupied_bays := (p.2 : ℤ) - (availableCount db p.1 : ℤ)
    occupancy_rate :=
      if 0 < p.2 then
        pyRound1Q ((((p.2 : ℤ) - (availableCount db p.1 : ℤ) : ℤ) : ℚ) / (p.2 : ℚ) * 100)
      else 0 }

/-- The `/streets` route: one record per street of `streetsData`; HTTP 200. -/
def get_streets_list (db : Snapshot) : ℕ × List StreetRecord :=
  (200, (streetsData db).map (streetRecordOf db))

/-- `math.radians`: degrees to radians. -/
noncomputable def radians (x : ℝ) : ℝ := x * Real.pi / 180

/-- `math.atan2 y x`: the two-argument arctangent, by the standard case
split on the signs of the arguments. -/
noncomputable def atan2 (y x : ℝ) : ℝ :=
  if 0 < x then Real.arctan (y / x)
  else if x < 0 then
    (if 0 ≤ y then Real.arctan (y / x) + Real.pi else Real.arctan (y / x) - Real.pi)
  else if 0 < y then Real.pi / 2
  else if y < 0 then -(Real.pi / 2)
  else 0

/-- The intermediate value `a` of `calculate_distance`:
`sin(delta_lat/2)^2 + cos(lat1_rad) * cos(lat2_rad) * sin(delta_lng/2)^2`
with `delta_lat = radians(lat2 - lat1)` and
`delta_lng = radians(lng2 - lng1)`. -/
noncomputable def haversineA (lat1 lng1 lat2 lng2 : ℝ) : ℝ :=
  Real.sin (radians (lat2 - lat1) / 2) * Real.sin (radians (lat2 - lat1) / 2) +
  Real.cos (radians lat1) * Real.cos (radians lat2) *
  Real.sin (radians (lng2 - lng1) / 2) * Real.sin (radians (lng2 - lng1) / 2)

/-- `calculate_distance(lat1, lng1, lat2, lng2)`: the haversine distance in
meters on a sphere of radius 6,371,000 m, exactly as computed by the
source: `R * c` with `c = 2 * atan2(sqrt(a), sqrt(1 - a))`. -/
noncomputable def calculate_distance (lat1 lng1 lat2 lng2 : ℝ) : ℝ :=
  6371000 * (2 * atan2 (Real.sqrt (haversineA lat1 lng1 lat2 lng2))
    (Real.sqrt (1 - haversineA lat1 lng1 lat2 lng2)))

/-- Python's `round` (banker's rounding, ties to even) on a real number. -/
noncomputable def pyRound (x : ℝ) : ℤ :=
  if Int.fract x = 1 / 2 then (if Even ⌊x⌋ then ⌊x⌋ else ⌊x⌋ + 1) else round x

/-- Python's `round(x, 1)` on a real number. -/
noncomputable def pyRound1 (x : ℝ) : ℝ := (pyRound (10 * x) : ℝ) / 10

/-- The rectangular prefilter of `/nearby`: latitude within
`lat ± radius / 111000` and longitude within
`lng ± radius / (111000 * cos(radians(lat)))`, both `BETWEEN` bounds
inclusive. -/
noncomputable def nearbyBoxPred (lat lng radius plat plng : ℝ) : Prop :=
  (lat - radius / 111000 ≤ plat ∧ plat ≤ lat + radius / 111000) ∧
  (lng - radius / (111000 * Real.cos (radians lat)) ≤ plng ∧
    plng ≤ lng + radius / (111000 * Real.cos (radians lat)))

/-- One element of the `data` array returned by `/nearby`; `distance` is
already rounded to one decimal. -/
structure NearbyRecord where
  kerbside_id : ℤ
  latitude : ℚ
  longitude : ℚ
  distance : ℝ
  road_segment : Option String
  zone_number : Option ℤ

/-- A successful `/nearby` body (data, echoed search center and radius),
or the error body produced by the `except` handler. -/
inductive NearbyBody where
  | ok (data : List NearbyRecord) (searchCenter : ℚ × ℚ) (searchRadius : ℚ) : NearbyBody
  | err : NearbyBody

/-- The `data` list of a `/nearby` body (empty for the error body). -/
def NearbyBody.getData : NearbyBody → List NearbyRecord
  | .ok data _ _ => data
  | .err => []

open Classical in
/-- The candidate query of `/nearby`: joined rows with status exactly
`'Unoccupied'` whose coordinates lie inside the bounding box. -/
noncomputable def nearbyCandidates (rows : List (ParkingBay × ParkingStatusCurrent))
    (lat lng radius : ℚ) : List (ParkingBay × ParkingStatusCurrent) :=
  rows.filter fun bs =>
    bs.2.status_description == "Unoccupied" &&
    decide (nearbyBoxPred (lat : ℝ) (lng : ℝ) (radius : ℝ)
      (bs.1.latitude : ℝ) (bs.1.longitude : ℝ))

open Classical in
/-- The `available_spaces` accumulation of `/nearby`: each candidate whose
exact haversine distance is within the radius becomes a record carrying
the distance rounded to one decimal. -/
noncomputable def availableSpaces (rows : List (ParkingBay × ParkingStatusCurrent))
    (lat lng radius : ℚ) : List NearbyRecord :=
  (nearbyCandidates rows lat lng radius).filterMap fun bs =>
    if calculate_distance (lat : ℝ) (lng : ℝ)
        (bs.1.latitude : ℝ) (bs.1.longitude : ℝ) ≤ (radius : ℝ) then
      some { kerbside_id := bs.1.kerbside_id
             latitude := bs.1.latitude
             longitude := bs.1.longitude
             distance := pyRound1 (calculate_distance (lat : ℝ) (lng : ℝ)
               (bs.1.latitude : ℝ) (bs.1.longitude : ℝ))
             road_segment := bs.1.road_segment_description
             zone_number := bs.2.zone_number }
    else none

open Classical in
/-- The core of `/nearby` once `lat`, `lng` and `radius` have parsed: the
surviving records are stably sorted ascending by their (rounded) distance
and the first 20 are returned with the echoed center and radius. -/
noncomputable def find_nearby_core (rows : List (ParkingBay × ParkingStatusCurrent))
    (lat lng radius : ℚ) : NearbyBody :=
  .ok (((availableSpaces rows lat lng radius).insertionSort
      fun a b => a.distance ≤ b.distance).take 20)
    (lat, lng) radius

/-- A float-valued query parameter as seen by `float(request.args.get(k))`:
absent, present but not a number, or a parsed value. -/
inductive FloatArg where
  | missing : FloatArg
  | malformed : FloatArg
  | value (q : ℚ) : FloatArg
deriving DecidableEq, Repr

/-- `float(request.args.get(k))` and `float(request.args.get(k, d))`:
`float(None)` and `float` of a non-numeric string raise (`none`); an
absent parameter with a default yields the default. -/
def FloatArg.toFloat? : FloatArg → Option ℚ → Option ℚ
  | .missing, some d => some d
  | .missing, none => none
  | .malformed, _ => none
  | .value q, _ => some q

/-- The `/nearby` route: parse `lat`, `lng` (no default) and `radius`
(default 500) in that order; any raised conversion error is caught by the
`except` handler and answered as HTTP 500 with an error body; otherwise
the core search runs and is answered as HTTP 200. -/
noncomputable def find_nearby_parking (db : Snapshot)
    (latArg lngArg radiusArg : FloatArg) : ℕ × NearbyBody :=
  match latArg.toFloat? none with
  | none => (500, .err)
  | some lat =>
    match lngArg.toFloat? none with
    | none => (500, .err)
    | some lng =>
      match radiusArg.toFloat? (some 500) with
      | none => (500, .err)
      | some radius => (200, find_nearby_core (joinedRows db) lat lng radius)

/-! ## General lemmas about the embedded queries -/

theorem mem_distinctFold (l acc : List String) (x : String) :
    x ∈ l.foldl (fun acc a => if a ∈ acc then acc else acc ++ [a]) acc ↔
      x ∈ acc ∨ x ∈ l := by
  induction l generalizing acc with
  | nil => simp
  | cons a l ih =>
    simp only [List.foldl_cons]
    rw [ih]
    by_cases h : a ∈ acc
    · rw [if_pos h]
      constructor
      · rintro (hx | hx)
        · exact Or.inl hx
        · exact Or.inr (List.mem_cons_of_mem _ hx)
      · rintro (hx | hx)
        · exact Or.inl hx
        · rcases List.mem_cons.mp hx with rfl | hx
          · exact Or.inl h
          · exact Or.inr hx
    · rw [if_neg h]
      simp only [List.mem_append, List.mem_singleton, List.mem_cons]
      tauto

theorem nodup_distinctFold (l : List String) (acc : List String) (hacc : acc.Nodup) :
    (l.foldl (fun acc a => if a ∈ acc then acc else acc ++ [a]) acc).Nodup := by
  induction l generalizing acc with
  | nil => simpa using hacc
  | cons a l ih =>
    simp only [List.foldl_cons]
    by_cases h : a ∈ acc
    · rw [if_pos h]; exact ih acc hacc
    · rw [if_neg h]
      refine ih _ ?_
      simpa [List.nodup_append] using ⟨hacc, h⟩

theorem mem_distinctList {l : List String} {x : String} :
    x ∈ distinctList l ↔ x ∈ l := by
  simpa [distinctList] using mem_distinctFold l [] x

theorem nodup_distinctList (l : List String) : (distinctList l).Nodup :=
  nodup_distinctFold l [] List.nodup_nil

theorem mem_joinedRows {db : Snapshot} {p : ParkingBay × ParkingStatusCurrent}
    (hp : p ∈ joinedRows db) :
    p.1 ∈ db.bays ∧ p.2 ∈ db.statuses ∧ p.2.kerbside_id = p.1.kerbside_id := by
  simp only [joinedRows, List.mem_flatMap, List.mem_map, List.mem_filter] at hp
  obtain ⟨b, hb, s, ⟨hs, hk⟩, rfl⟩ := hp
  exact ⟨hb, hs, by simpa using hk⟩

theorem joinedRows_statusless (b : ParkingBay) (l1 l2 : List ParkingBay)
    (ss : List ParkingStatusCurrent) (hs : ∀ s ∈ ss, s.kerbside_id ≠ b.kerbside_id) :
    joinedRows ⟨l1 ++ b :: l2, ss⟩ = joinedRows ⟨l1 ++ l2, ss⟩ := by
  have hfil : ss.filter (fun s => s.kerbside_id == b.kerbside_id) = [] := by
    rw [List.filter_eq_nil_iff]
    intro s hsmem
    simpa using hs s hsmem
  simp only [joinedRows, List.flatMap_append, List.flatMap_cons, hfil, List.map_nil,
    List.nil_append]

theorem mem_streetRows {rows : List (ParkingBay × ParkingStatusCurrent)}
    {bounds : BoundsArg} {n : String} {bs : ParkingBay × ParkingStatusCurrent}
    (h : bs ∈ streetRows rows bounds n) :
    bs ∈ rows ∧ bs.1.road_segment_description = some n := by
  simp only [streetRows, List.mem_filter, Bool.and_eq_true, beq_iff_eq] at h
  exact ⟨h.1, h.2.1⟩

theorem sampleLoop_nil_of_nonpos (rows : List (ParkingBay × ParkingStatusCurrent))
    (bounds : BoundsArg) (q : ℤ) (names : List String) (rem : ℤ) (h : rem ≤ 0) :
    sampleLoop rows bounds q names rem = [] := by
  cases names with
  | nil => rfl
  | cons n rest => simp [sampleLoop, h]

theorem mem_sampleLoop (rows : List (ParkingBay × ParkingStatusCurrent))
    (bounds : BoundsArg) (q : ℤ) :
    ∀ (names : List String) (rem : ℤ) (r : CurrentRecord),
      r ∈ sampleLoop rows bounds q names rem →
      ∃ n ∈ names, ∃ bs ∈ streetRows rows bounds n, r = toCurrentRecord bs := by
  intro names
  induction names with
  | nil => intro rem r hr; simp [sampleLoop] at hr
  | cons n rest ih =>
    intro rem r hr
    rw [sampleLoop] at hr
    by_cases hrem : rem ≤ 0
    · rw [if_pos hrem] at hr; simp at hr
    · rw [if_neg hrem] at hr
      rcases List.mem_append.mp hr with hr | hr
      · obtain ⟨bs, hbs, rfl⟩ := List.mem_map.mp hr
        exact ⟨n, List.mem_cons_self _ _, bs, List.mem_of_mem_take hbs, rfl⟩
      · obtain ⟨m, hm, bs, hbs, rfl⟩ := ih _ r hr
        exact ⟨m, List.mem_cons_of_mem _ hm, bs, hbs, rfl⟩

theorem sampleLoop_countP_zero (rows : List (ParkingBay × ParkingStatusCurrent))
    (bounds : BoundsArg) (q : ℤ) (names : List String) (rem : ℤ) (m : String)
    (hm : m ∉ names) :
    (sampleLoop rows bounds q names rem).countP
      (fun r => r.road_segment == some m) = 0 := by
  rw [List.countP_eq_zero]
  intro r hr
  obtain ⟨n, hn, bs, hbs, rfl⟩ := mem_sampleLoop rows bounds q names rem r hr
  have hroad := (mem_streetRows hbs).2
  have hne : n ≠ m := fun h => hm (h ▸ hn)
  simp [toCurrentRecord, hroad, hne]

theorem sampleLoop_length_le (rows : List (ParkingBay × ParkingStatusCurrent))
    (bounds : BoundsArg) (q : ℤ) :
    ∀ (names : List String) (rem : ℤ),
      ((sampleLoop rows bounds q names rem).length : ℤ) ≤ max rem 0 := by
  intro names
  induction names with
  | nil => intro rem; simp [sampleLoop]
  | cons n rest ih =>
    intro rem
    rw [sampleLoop]
    by_cases hrem : rem ≤ 0
    · rw [if_pos hrem]; simp
    · rw [if_neg hrem]
      have hlen : (((streetRows rows bounds n).take (min q rem).toNat).length : ℤ) ≤
          ((min q rem).toNat : ℤ) := by
        exact_mod_cast List.length_take_le _ _
      have hmin : min q rem ≤ rem := min_le_right _ _
      have := ih (rem - ((streetRows rows bounds n).take (min q rem).toNat).length)
      simp only [List.length_append, List.length_map]
      push_cast at this ⊢
      omega

theorem sampleLoop_countP_le (rows : List (ParkingBay × ParkingStatusCurrent))
    (bounds : BoundsArg) (q : ℤ) (hq : 0 < q) :
    ∀ (names : List String), names.Nodup → ∀ (rem : ℤ) (m : String),
      ((sampleLoop rows bounds q names rem).countP
        (fun r => r.road_segment == some m) : ℤ) ≤ q := by
  intro names
  induction names with
  | nil => intro _ rem m; simp [sampleLoop, hq.le]
  | cons n rest ih =>
    intro hnd rem m
    have hn : n ∉ rest := (List.nodup_cons.mp hnd).1
    have hrest : rest.Nodup := (List.nodup_cons.mp hnd).2
    rw [sampleLoop]
    by_cases hrem : rem ≤ 0
    · rw [if_pos hrem]; simp [hq.le]
    · rw [if_neg hrem]
      rw [List.countP_append]
      by_cases hm : m = n
      · subst hm
        have hz : (sampleLoop rows bounds q rest
            (rem - ((streetRows rows bounds m).take (min q rem).toNat).length)).countP
            (fun r => r.road_segment == some m) = 0 :=
          sampleLoop_countP_zero rows bounds q rest _ m hn
        have hblk : (((streetRows rows bounds m).take (min q rem).toNat).map
            toCurrentRecord).countP (fun r => r.road_segment == some m) ≤
            (min q rem).toNat :=
          le_trans (List.countP_le_length _)
            (by simp only [List.length_map]; exact List.length_take_le _ _)
        have hq' : (0 : ℤ) ≤ min q rem := le_min hq.le (by omega)
        have : ((min q rem).toNat : ℤ) = min q rem := Int.toNat_of_nonneg hq'
        rw [hz]
        have := hblk
        push_cast
        omega
      · have hblk : (((streetRows rows bounds n).take (min q rem).toNat).map
            toCurrentRecord).countP (fun r => r.road_segment == some m) = 0 := by
          rw [List.countP_eq_zero]
          intro r hr
          obtain ⟨bs, hbs, rfl⟩ := List.mem_map.mp hr
          have hroad := (mem_streetRows (List.mem_of_mem_take hbs)).2
          simp only [toCurrentRecord, hroad, beq_iff_eq, Option.some.injEq]
          exact fun h => hm h.symm
        rw [hblk]
        simpa using ih hrest _ m

theorem sampleLoop_countP_recurrence (rows : List (ParkingBay × ParkingStatusCurrent))
    (bounds : BoundsArg) (q : ℤ) (hq : 0 < q) :
    ∀ (names : List String), names.Nodup → ∀ (rem : ℤ) (i : ℕ), i < names.length →
      ((sampleLoop rows bounds q names rem).countP
          (fun r => r.road_segment == some (names.getD i "")) : ℤ) =
        min (min q (max (rem - ∑ t ∈ Finset.range i,
            ((sampleLoop rows bounds q names rem).countP
              (fun r => r.road_segment == some (names.getD t "")) : ℤ)) 0))
          ((streetRows rows bounds (names.getD i "")).length : ℤ) := by
  intro names
  induction names with
  | nil => intro _ rem i hi; simp at hi
  | cons n rest ih =>
    intro hnd rem i hi
    have hn : n ∉ rest := (List.nodup_cons.mp hnd).1
    have hrest : rest.Nodup := (List.nodup_cons.mp hnd).2
    by_cases hrem : rem ≤ 0
    · rw [sampleLoop_nil_of_nonpos rows bounds q _ rem hrem]
      simp only [List.countP_nil, Nat.cast_zero, Finset.sum_const_zero, sub_zero]
      rw [max_eq_right hrem, min_eq_right hq.le]
      symm
      exact min_eq_left (by positivity)
    · simp only [sampleLoop, if_neg hrem]
      have hblkcount : ∀ m : String,
          ((((streetRows rows bounds n).take (min q rem).toNat).map
            toCurrentRecord).countP (fun r => r.road_segment == some m)) =
          if m = n then
            ((streetRows rows bounds n).take (min q rem).toNat).length
          else 0 := by
        intro m
        by_cases hm : m = n
        · subst hm
          rw [if_pos rfl]
          have : ∀ r ∈ ((streetRows rows bounds m).take (min q rem).toNat).map
              toCurrentRecord, (r.road_segment == some m) = true := by
            intro r hr
            obtain ⟨bs, hbs, rfl⟩ := List.mem_map.mp hr
            have hroad := (mem_streetRows (List.mem_of_mem_take hbs)).2
            simp [toCurrentRecord, hroad]
          rw [List.countP_eq_length.mpr this, List.length_map]
        · rw [if_neg hm, List.countP_eq_zero]
          intro r hr
          obtain ⟨bs, hbs, rfl⟩ := List.mem_map.mp hr
          have hroad := (mem_streetRows (List.mem_of_mem_take hbs)).2
          simp only [toCurrentRecord, hroad, beq_iff_eq, Option.some.injEq]
          exact fun h => hm h.symm
      have hL : ((((streetRows rows bounds n).take (min q rem).toNat).length : ℤ)) =
          min (min q rem) ((streetRows rows bounds n).length : ℤ) := by
        rw [List.length_take]
        push_cast
        rw [Int.toNat_of_nonneg (le_min hq.le (by omega))]
      cases i with
      | zero =>
        simp only [List.getD_cons_zero, Finset.range_zero, Finset.sum_empty, sub_zero]
        rw [List.countP_append, hblkcount n, if_pos rfl,
          sampleLoop_countP_zero rows bounds q rest _ n hn]
        rw [max_eq_left (by omega : (0:ℤ) ≤ rem)]
        push_cast
        omega
      | succ j =>
        have hj : j < rest.length := by simpa using hi
        simp only [List.getD_cons_succ]
        have hmem : rest.getD j "" ∈ rest := by
          rw [List.getD_eq_getElem rest "" hj]
          exact rest.getElem_mem hj
        have hblk0 : ∀ m ∈ rest,
            ((((streetRows rows bounds n).take (min q rem).toNat).map
              toCurrentRecord).countP (fun r => r.road_segment == some m)) = 0 := by
          intro m hm
          rw [hblkcount m, if_neg]
          rintro rfl
          exact hn hm
        rw [List.countP_append, hblk0 _ hmem, Nat.zero_add]
        have hsum : ∑ t ∈ Finset.range (j + 1),
            (((((streetRows rows bounds n).take (min q rem).toNat).map
                toCurrentRecord ++
              sampleLoop rows bounds q rest
                (rem - ((streetRows rows bounds n).take (min q rem).toNat).length)).countP
              (fun r => r.road_segment == some ((n :: rest).getD t ""))) : ℤ) =
            (((streetRows rows bounds n).take (min q rem).toNat).length : ℤ) +
            ∑ t ∈ Finset.range j,
              (((sampleLoop rows bounds q rest
                (rem - ((streetRows rows bounds n).take (min q rem).toNat).length)).countP
                (fun r => r.road_segment == some (rest.getD t ""))) : ℤ) := by
          rw [Finset.sum_range_succ']
          have h1 : ∀ t ∈ Finset.range j,
              (((((streetRows rows bounds n).take (min q rem).toNat).map
                  toCurrentRecord ++
                sampleLoop rows bounds q rest
                  (rem - ((streetRows rows bounds n).take (min q rem).toNat).length)).countP
                (fun r => r.road_segment == some ((n :: rest).getD (t + 1) ""))) : ℤ) =
              (((sampleLoop rows bounds q rest
                (rem - ((streetRows rows bounds n).take (min q rem).toNat).length)).countP
                (fun r => r.road_segment == some (rest.getD t ""))) : ℤ) := by
            intro t ht
            have htj : t < j := Finset.mem_range.mp ht
            have htmem : rest.getD t "" ∈ rest := by
              rw [List.getD_eq_getElem rest "" (htj.trans hj)]
              exact rest.getElem_mem (htj.trans hj)
            rw [List.getD_cons_succ, List.countP_append, hblk0 _ htmem, Nat.zero_add]
          rw [Finset.sum_congr rfl h1, List.getD_cons_zero, List.countP_append,
            hblkcount n, if_pos rfl, sampleLoop_countP_zero rows bounds q rest _ n hn]
          push_cast
          ring
        rw [hsum]
        have := ih hrest
          (rem - ((streetRows rows bounds n).take (min q rem).toNat).length) j hj
        rw [this, sub_sub]

/-! ## Claims about the balanced map sampler (`/current`) -/

/-- C5 (amended): with `S > 0` distinct street names, the `/current`
sampler reports the per-street quota `max(2, targetCount // S)`; no street
contributes more than that quota many rows; the total returned never
exceeds `max(targetCount, 0)`; and the rows drawn for the `i`-th visited
street number exactly `min(min(quota, remaining budget before street i,
floored at 0), size of street i)` — the budget is spent street by street
in visiting order and leftover quota of small streets is never
redistributed. -/
theorem current_sampler_quota_guarantee (db : Snapshot) (limitArg : Option ℤ)
    (bounds : BoundsArg)
    (hS : 0 < (streetNamesQuery (joinedRows db) bounds).length) :
    (get_current_parking_status db limitArg bounds).2.distribution_info.target_bays_per_street =
      max 2 (Int.fdiv (limitArg.getD 1500)
        (streetNamesQuery (joinedRows db) bounds).length) ∧
    (∀ m : String,
      (((get_current_parking_status db limitArg bounds).2.data.countP
          (fun r => r.road_segment == some m)) : ℤ) ≤
        max 2 (Int.fdiv (limitArg.getD 1500)
          (streetNamesQuery (joinedRows db) bounds).length)) ∧
    (((get_current_parking_status db limitArg bounds).2.data.length : ℤ) ≤
      max (limitArg.getD 1500) 0) ∧
    (∀ i : ℕ, i < (streetNamesQuery (joinedRows db) bounds).length →
      (((get_current_parking_status db limitArg bounds).2.data.countP
          (fun r => r.road_segment == some
            ((streetNamesQuery (joinedRows db) bounds).getD i ""))) : ℤ) =
        min (min (max 2 (Int.fdiv (limitArg.getD 1500)
              (streetNamesQuery (joinedRows db) bounds).length))
            (max ((limitArg.getD 1500) - ∑ t ∈ Finset.range i,
              (((get_current_parking_status db limitArg bounds).2.data.countP
                (fun r => r.road_segment == some
                  ((streetNamesQuery (joinedRows db) bounds).getD t ""))) : ℤ)) 0))
          ((streetRows (joinedRows db) bounds
            ((streetNamesQuery (joinedRows db) bounds).getD i "")).length : ℤ)) := by
  have hquota : currentQuota (streetNamesQuery (joinedRows db) bounds).length
      (limitArg.getD 1500) =
      max 2 (Int.fdiv (limitArg.getD 1500)
        (streetNamesQuery (joinedRows db) bounds).length) := by
    rw [currentQuota, if_pos hS]
  have hqpos : (0 : ℤ) < max 2 (Int.fdiv (limitArg.getD 1500)
      (streetNamesQuery (joinedRows db) bounds).length) :=
    lt_of_lt_of_le two_pos (le_max_left _ _)
  have hdata : (get_current_parking_status db limitArg bounds).2.data =
      sampleLoop (joinedRows db) bounds
        (max 2 (Int.fdiv (limitArg.getD 1500)
          (streetNamesQuery (joinedRows db) bounds).length))
        (streetNamesQuery (joinedRows db) bounds) (limitArg.getD 1500) := by
    show currentData db limitArg bounds = _
    rw [currentData, hquota]
  have hnd : (streetNamesQuery (joinedRows db) bounds).Nodup := nodup_distinctList _
  refine ⟨?_, ?_, ?_, ?_⟩
  · show currentQuota _ _ = _
    exact hquota
  · intro m
    rw [hdata]
    exact sampleLoop_countP_le (joinedRows db) bounds _ hqpos _ hnd _ m
  · rw [hdata]
    exact le_trans (sampleLoop_length_le (joinedRows db) bounds _ _ _) (by simp)
  · intro i hi
    rw [hdata]
    exact sampleLoop_countP_recurrence (joinedRows db) bounds _ hqpos _ hnd _ i hi

/-- C5 counterexample: a snapshot with one street and a negative explicit
`targetCount = -1`.  The sampler returns 0 rows, and `0 ≤ -1` is false, so
"the total returned never exceeds targetCount" fails as stated for this
`targetCount` even though `S > 0`. -/
theorem current_sampler_negative_budget_counterexample :
    0 < (streetNamesQuery (joinedRows ⟨[⟨1, 0, 0, none, some "A"⟩],
        [⟨1, "Unoccupied", none⟩]⟩) .absent).length ∧
    ¬ (((get_current_parking_status ⟨[⟨1, 0, 0, none, some "A"⟩],
        [⟨1, "Unoccupied", none⟩]⟩ (some (-1)) .absent).2.data.length : ℤ) ≤ -1) := by
  decide

/-- C5 witness: the quota guarantee evaluated on a one-street snapshot with
`targetCount = 4`. -/
theorem current_sampler_quota_guarantee_witness :
    (get_current_parking_status ⟨[⟨1, 0, 0, none, some "A"⟩], [⟨1, "Unoccupied", none⟩]⟩
        (some 4) .absent).2.distribution_info.target_bays_per_street =
      max 2 (Int.fdiv ((some (4 : ℤ)).getD 1500)
        (streetNamesQuery (joinedRows ⟨[⟨1, 0, 0, none, some "A"⟩],
          [⟨1, "Unoccupied", none⟩]⟩) .absent).length) ∧
    (((get_current_parking_status ⟨[⟨1, 0, 0, none, some "A"⟩], [⟨1, "Unoccupied", none⟩]⟩
        (some 4) .absent).2.data.length : ℤ) ≤ max ((some (4 : ℤ)).getD 1500) 0) :=
  have h := current_sampler_quota_guarantee
    ⟨[⟨1, 0, 0, none, some "A"⟩], [⟨1, "Unoccupied", none⟩]⟩ (some 4) .absent (by decide)
  ⟨h.1, h.2.2.1⟩

/-- C6 (amended): when the candidate set has no distinct non-null street
name, `/current` sets the reported quota to `targetCount` but the street
loop visits no street, so the response carries an empty data list, count
0 and `streetCount = 0` — it does not draw from the candidate set. -/
theorem current_sampler_degenerate (db : Snapshot) (limitArg : Option ℤ)
    (bounds : BoundsArg) (h : streetNamesQuery (joinedRows db) bounds = []) :
    get_current_parking_status db limitArg bounds =
      (200, { success := true
              count := 0
              data := []
              distribution_info :=
                { total_streets := 0
                  target_bays_per_street := limitArg.getD 1500
                  actual_bays_returned := 0 } }) := by
  have hdata : currentData db limitArg bounds = [] := by
    rw [currentData, h]
    rfl
  rw [get_current_parking_status, hdata, h]
  simp [currentQuota]

/-- C6 counterexample: one candidate bay with a null street name and
`targetCount = 5`.  The claim predicts one drawn row (`S == 0` drawing
directly from the candidate set up to 5); the code returns no rows at
all. -/
theorem current_sampler_degenerate_counterexample :
    (get_current_parking_status ⟨[⟨1, 0, 0, none, none⟩], [⟨1, "Unoccupied", none⟩]⟩
        (some 5) .absent).2.data = [] ∧
    joinedRows ⟨[⟨1, 0, 0, none, none⟩], [⟨1, "Unoccupied", none⟩]⟩ ≠ [] := by
  decide

/-- C6 witness: the degenerate behaviour evaluated on the one-bay null
street snapshot with `targetCount = 5`. -/
theorem current_sampler_degenerate_witness :
    get_current_parking_status ⟨[⟨1, 0, 0, none, none⟩], [⟨1, "Unoccupied", none⟩]⟩
        (some 5) .absent =
      (200, { success := true
              count := 0
              data := []
              distribution_info :=
                { total_streets := 0
                  target_bays_per_street := 5
                  actual_bays_returned := 0 } }) :=
  current_sampler_degenerate _ (some 5) .absent (by decide)

/-- C10: an explicit integer `limit = L` on `/current` flows into the same
balanced sampling machinery with `targetCount = L` (same street list, same
quota `max(2, L // S)` when `S > 0`, same loop and budget), and any
`L ≤ 0` yields a successful response with empty data and count 0. -/
theorem current_explicit_limit (db : Snapshot) (bounds : BoundsArg) (L : ℤ) :
    (get_current_parking_status db (some L) bounds).2.data =
      sampleLoop (joinedRows db) bounds
        (currentQuota (streetNamesQuery (joinedRows db) bounds).length L)
        (streetNamesQuery (joinedRows db) bounds) L ∧
    (0 < (streetNamesQuery (joinedRows db) bounds).length →
      (get_current_parking_status db (some L) bounds).2.distribution_info.target_bays_per_street =
        max 2 (Int.fdiv L (streetNamesQuery (joinedRows db) bounds).length)) ∧
    (L ≤ 0 →
      (get_current_parking_status db (some L) bounds).2.success = true ∧
      (get_current_parking_status db (some L) bounds).2.count = 0 ∧
      (get_current_parking_status db (some L) bounds).2.data = []) := by
  have hdata : (get_current_parking_status db (some L) bounds).2.data =
      sampleLoop (joinedRows db) bounds
        (currentQuota (streetNamesQuery (joinedRows db) bounds).length L)
        (streetNamesQuery (joinedRows db) bounds) L := rfl
  refine ⟨hdata, ?_, ?_⟩
  · intro hS
    show currentQuota _ _ = _
    rw [currentQuota, if_pos hS]
    rfl
  · intro hL
    have hempty : (get_current_parking_status db (some L) bounds).2.data = [] := by
      rw [hdata, sampleLoop_nil_of_nonpos _ _ _ _ _ hL]
    refine ⟨rfl, ?_, hempty⟩
    show (currentData db (some L) bounds).length = 0
    have : currentData db (some L) bounds = [] := hempty
    rw [this]
    rfl

/-- C10 witness: explicit limits 0 and 4 on a one-street snapshot. -/
theorem current_explicit_limit_witness :
    ((get_current_parking_status ⟨[⟨1, 0, 0, none, some "A"⟩], [⟨1, "Unoccupied", none⟩]⟩
        (some 0) .absent).2.success = true ∧
      (get_current_parking_status ⟨[⟨1, 0, 0, none, some "A"⟩], [⟨1, "Unoccupied", none⟩]⟩
        (some 0) .absent).2.count = 0 ∧
      (get_current_parking_status ⟨[⟨1, 0, 0, none, some "A"⟩], [⟨1, "Unoccupied", none⟩]⟩
        (some 0) .absent).2.data = []) ∧
    (get_current_parking_status ⟨[⟨1, 0, 0, none, some "A"⟩], [⟨1, "Unoccupied", none⟩]⟩
        (some 4) .absent).2.distribution_info.target_bays_per_street =
      max 2 (Int.fdiv 4 (streetNamesQuery (joinedRows ⟨[⟨1, 0, 0, none, some "A"⟩],
        [⟨1, "Unoccupied", none⟩]⟩) .absent).length) :=
  ⟨(current_explicit_limit ⟨[⟨1, 0, 0, none, some "A"⟩], [⟨1, "Unoccupied", none⟩]⟩
      .absent 0).2.2 (by decide),
    (current_explicit_limit ⟨[⟨1, 0, 0, none, some "A"⟩], [⟨1, "Unoccupied", none⟩]⟩
      .absent 4).2.1 (by decide)⟩

/-! ## The AvailabilityView join invariant -/

/-- C2: a bay with no current status record is invisible to every
operation: no joined row carries its key, and removing it from the
snapshot changes nothing in the `/nearby`, `/streets` or `/current`
responses (results, per-street counts, sample and distribution metadata
alike). -/
theorem statusless_bay_invisible (b : ParkingBay) (l1 l2 : List ParkingBay)
    (ss : List ParkingStatusCurrent)
    (hs : ∀ s ∈ ss, s.kerbside_id ≠ b.kerbside_id) :
    (∀ p ∈ joinedRows ⟨l1 ++ b :: l2, ss⟩, p.1.kerbside_id ≠ b.kerbside_id) ∧
    (∀ latArg lngArg radiusArg : FloatArg,
      find_nearby_parking ⟨l1 ++ b :: l2, ss⟩ latArg lngArg radiusArg =
        find_nearby_parking ⟨l1 ++ l2, ss⟩ latArg lngArg radiusArg) ∧
    get_streets_list ⟨l1 ++ b :: l2, ss⟩ = get_streets_list ⟨l1 ++ l2, ss⟩ ∧
    (∀ (limitArg : Option ℤ) (bounds : BoundsArg),
      get_current_parking_status ⟨l1 ++ b :: l2, ss⟩ limitArg bounds =
        get_current_parking_status ⟨l1 ++ l2, ss⟩ limitArg bounds) := by
  have hjoin : joinedRows ⟨l1 ++ b :: l2, ss⟩ = joinedRows ⟨l1 ++ l2, ss⟩ :=
    joinedRows_statusless b l1 l2 ss hs
  refine ⟨?_, ?_, ?_, ?_⟩
  · intro p hp
    obtain ⟨-, hmem, hk⟩ := mem_joinedRows hp
    exact hk ▸ hs p.2 hmem
  · intro latArg lngArg radiusArg
    cases latArg <;> cases lngArg <;> cases radiusArg <;>
      simp only [find_nearby_parking, FloatArg.toFloat?, hjoin]
  · have hAC : ∀ n, availableCount ⟨l1 ++ b :: l2, ss⟩ n =
        availableCount ⟨l1 ++ l2, ss⟩ n := by
      intro n
      unfold availableCount
      rw [hjoin]
    have hSD : streetsData ⟨l1 ++ b :: l2, ss⟩ = streetsData ⟨l1 ++ l2, ss⟩ := by
      unfold streetsData
      rw [hjoin]
    have hSR : ∀ p, streetRecordOf ⟨l1 ++ b :: l2, ss⟩ p =
        streetRecordOf ⟨l1 ++ l2, ss⟩ p := by
      intro p
      unfold streetRecordOf
      rw [hAC p.1]
    unfold get_streets_list
    rw [hSD, funext hSR]
  · intro limitArg bounds
    unfold get_current_parking_status currentData
    rw [hjoin]

/-- C2 witness: a bay with key 7 and no status row is invisible on a
concrete snapshot. -/
theorem statusless_bay_invisible_witness :
    find_nearby_parking ⟨[⟨7, 0, 0, none, none⟩], []⟩ (.value 0) (.value 0) .missing =
      find_nearby_parking ⟨[], []⟩ (.value 0) (.value 0) .missing ∧
    get_streets_list ⟨[⟨7, 0, 0, none, none⟩], []⟩ = get_streets_list ⟨[], []⟩ ∧
    get_current_parking_status ⟨[⟨7, 0, 0, none, none⟩], []⟩ (some 10) .absent =
      get_current_parking_status ⟨[], []⟩ (some 10) .absent :=
  have h := statusless_bay_invisible ⟨7, 0, 0, none, none⟩ [] [] []
    (by intro s hs; simp at hs)
  ⟨h.2.1 (.value 0) (.value 0) .missing, h.2.2.1, h.2.2.2 (some 10) .absent⟩

/-! ## Claims about the street aggregator (`/streets`) -/

theorem sum_map_add_nat {α : Type} (l : List α) (f g : α → ℕ) :
    (l.map fun a => f a + g a).sum = (l.map f).sum + (l.map g).sum := by
  induction l with
  | nil => rfl
  | cons a l ih => simp [ih]; omega

theorem sum_map_indicator_eq_zero {names : List String} {m : String} (hm : m ∉ names) :
    (names.map fun n => if m = n then (1 : ℕ) else 0).sum = 0 := by
  apply List.sum_eq_zero
  intro x hx
  obtain ⟨n, hn, rfl⟩ := List.mem_map.mp hx
  rw [if_neg]
  rintro rfl
  exact hm hn

theorem sum_map_indicator_eq_one {names : List String} {m : String}
    (hnd : names.Nodup) (hm : m ∈ names) :
    (names.map fun n => if m = n then (1 : ℕ) else 0).sum = 1 := by
  induction names with
  | nil => simp at hm
  | cons a l ih =>
    rcases List.mem_cons.mp hm with rfl | hm'
    · have hnl : m ∉ l := (List.nodup_cons.mp hnd).1
      simp [sum_map_indicator_eq_zero hnl]
    · have hne : m ≠ a := by
        rintro rfl
        exact (List.nodup_cons.mp hnd).1 hm'
      simp only [List.map_cons, List.sum_cons, if_neg hne,
        ih (List.nodup_cons.mp hnd).2 hm', Nat.zero_add]

theorem sum_street_counts (rows : List (ParkingBay × ParkingStatusCurrent))
    (names : List String) (hnd : names.Nodup)
    (hcov : ∀ bs ∈ rows, ∀ n : String,
      bs.1.road_segment_description = some n → n ∈ names) :
    (names.map fun n =>
        (rows.filter fun bs => bs.1.road_segment_description == some n).length).sum =
      rows.countP fun bs => bs.1.road_segment_description.isSome := by
  induction rows with
  | nil => simp
  | cons bs rest ih =>
    have hcov' : ∀ b ∈ rest, ∀ n : String,
        b.1.road_segment_description = some n → n ∈ names :=
      fun b hb => hcov b (List.mem_cons_of_mem _ hb)
    have hstep : (names.map fun n =>
        ((bs :: rest).filter fun b => b.1.road_segment_description == some n).length).sum =
        (names.map fun n =>
          (rest.filter fun b => b.1.road_segment_description == some n).length).sum +
        (names.map fun n =>
          if bs.1.road_segment_description = some n then (1 : ℕ) else 0).sum := by
      rw [← sum_map_add_nat]
      apply congrArg List.sum
      apply List.map_congr_left
      intro n hn
      rw [← List.countP_eq_length_filter, ← List.countP_eq_length_filter,
        List.countP_cons]
      congr 1
      by_cases h : bs.1.road_segment_description = some n
      · rw [if_pos h, if_pos (by simpa using h)]
      · rw [if_neg h, if_neg (by simpa using h)]
    rw [hstep, ih hcov', List.countP_cons]
    cases hroad : bs.1.road_segment_description with
    | none =>
      have hz : (names.map fun n =>
          if bs.1.road_segment_description = some n then (1 : ℕ) else 0).sum = 0 := by
        apply List.sum_eq_zero
        intro x hx
        obtain ⟨n, hn, rfl⟩ := List.mem_map.mp hx
        simp [hroad]
      simp [hz, hroad]
    | some m =>
      have hm : m ∈ names := hcov bs (List.mem_cons_self _ _) m hroad
      have h1 : (names.map fun n =>
          if bs.1.road_segment_description = some n then (1 : ℕ) else 0).sum = 1 := by
        have : (names.map fun n =>
            if bs.1.road_segment_description = some n then (1 : ℕ) else 0) =
            names.map fun n => if m = n then (1 : ℕ) else 0 := by
          apply List.map_congr_left
          intro n hn
          rw [hroad]
          by_cases h : m = n
          · rw [if_pos (by rw [h]), if_pos h]
          · rw [if_neg (by simpa using h), if_neg h]
        rw [this]
        exact sum_map_indicator_eq_one hnd hm
      simp only [h1, hroad, Option.isSome_some, if_pos]
      simp
      exact sum_map_indicator_eq_one hnd hm

theorem streets_name_occurs_iff {db : Snapshot} {n : String} :
    n ∈ distinctList ((joinedRows db).filterMap fun bs =>
      bs.1.road_segment_description) ↔
    ∃ bs ∈ joinedRows db, bs.1.road_segment_description = some n := by
  rw [mem_distinctList, List.mem_filterMap]

theorem mem_streetsData {db : Snapshot} {p : String × ℕ} (hp : p ∈ streetsData db) :
    (∃ bs ∈ joinedRows db, bs.1.road_segment_description = some p.1) ∧
    p.2 = ((joinedRows db).filter fun bs =>
      bs.1.road_segment_description == some p.1).length := by
  unfold streetsData at hp
  have hp2 := List.mem_of_mem_take hp
  rw [List.mem_insertionSort] at hp2
  obtain ⟨n, hn, rfl⟩ := List.mem_map.mp hp2
  exact ⟨streets_name_occurs_iff.mp hn, rfl⟩

theorem filter_street_length_pos {db : Snapshot} {n : String}
    (h : ∃ bs ∈ joinedRows db, bs.1.road_segment_description = some n) :
    0 < ((joinedRows db).filter fun bs =>
      bs.1.road_segment_description == some n).length := by
  obtain ⟨bs, hbs, hroad⟩ := h
  exact List.length_pos_of_mem (List.mem_filter.mpr ⟨hbs, by simp [hroad]⟩)

/-- C7 (amended): provided the snapshot has at most 50 distinct non-null
street names, the sum of `totalBays` over the streets returned by
`/streets` equals the number of joined rows with a non-null street name;
and unconditionally, every returned street's `totalBays` is its joined-row
count, `availableBays` counts exactly its rows with status `'Unoccupied'`
(all other statuses fall into `occupiedBays`), `occupiedBays` is the
nonnegative difference `totalBays - availableBays` (so
`occupiedBays + availableBays = totalBays`), and `occupancyRatePercent` is
`round(occupiedBays / totalBays * 100, 1)`. -/
theorem streets_aggregation_totals (db : Snapshot)
    (hS : (distinctList ((joinedRows db).filterMap fun bs =>
      bs.1.road_segment_description)).length ≤ 50) :
    ((get_streets_list db).2.map fun r => r.total_bays).sum =
      (joinedRows db).countP (fun bs => bs.1.road_segment_description.isSome) ∧
    (∀ rec ∈ (get_streets_list db).2,
      rec.total_bays = ((joinedRows db).filter fun bs =>
        bs.1.road_segment_description == some rec.street_name).length ∧
      rec.available_bays = ((joinedRows db).filter fun bs =>
        bs.1.road_segment_description == some rec.street_name &&
        bs.2.status_description == "Unoccupied").length ∧
      rec.available_bays ≤ rec.total_bays ∧
      rec.occupied_bays = (rec.total_bays : ℤ) - (rec.available_bays : ℤ) ∧
      rec.occupied_bays + (rec.available_bays : ℤ) = (rec.total_bays : ℤ) ∧
      0 ≤ rec.occupied_bays ∧
      rec.occupancy_rate =
        pyRound1Q ((rec.occupied_bays : ℚ) / (rec.total_bays : ℚ) * 100)) := by
  constructor
  · have htake : streetsData db =
        (((distinctList ((joinedRows db).filterMap fun bs =>
            bs.1.road_segment_description)).map fun n =>
          (n, ((joinedRows db).filter fun bs =>
            bs.1.road_segment_description == some n).length)).insertionSort
          fun a b => b.2 ≤ a.2) := by
      unfold streetsData
      apply List.take_of_length_le
      rw [List.length_insertionSort, List.length_map]
      exact hS
    show ((((streetsData db).map (streetRecordOf db)).map fun r => r.total_bays)).sum = _
    rw [List.map_map]
    have hmm : ((streetsData db).map ((fun r => r.total_bays) ∘ streetRecordOf db)).sum =
        ((streetsData db).map (fun p => p.2)).sum := rfl
    rw [hmm, htake]
    have hperm : (((((distinctList ((joinedRows db).filterMap fun bs =>
          bs.1.road_segment_description)).map fun n =>
            (n, ((joinedRows db).filter fun bs =>
              bs.1.road_segment_description == some n).length)).insertionSort
            fun a b => b.2 ≤ a.2)).map fun p => p.2).Perm
        ((((distinctList ((joinedRows db).filterMap fun bs =>
          bs.1.road_segment_description)).map fun n =>
            (n, ((joinedRows db).filter fun bs =>
              bs.1.road_segment_description == some n).length)).map fun p => p.2)) :=
      (List.perm_insertionSort _ _).map _
    rw [hperm.sum_eq, List.map_map]
    have hmm2 : (((distinctList ((joinedRows db).filterMap fun bs =>
        bs.1.road_segment_description)).map ((fun p : String × ℕ => p.2) ∘ fun n =>
          (n, ((joinedRows db).filter fun bs =>
            bs.1.road_segment_description == some n).length))).sum) =
        (((distinctList ((joinedRows db).filterMap fun bs =>
          bs.1.road_segment_description)).map fun n =>
            ((joinedRows db).filter fun bs =>
              bs.1.road_segment_description == some n).length).sum) := rfl
    rw [hmm2]
    exact sum_street_counts (joinedRows db) _ (nodup_distinctList _)
      (fun bs hbs n hroad => streets_name_occurs_iff.mpr ⟨bs, hbs, hroad⟩)
  · intro rec hrec
    obtain ⟨p, hp, rfl⟩ := List.mem_map.mp hrec
    obtain ⟨hocc, hcnt⟩ := mem_streetsData hp
    have havail : availableCount db p.1 ≤
        ((joinedRows db).filter fun bs =>
          bs.1.road_segment_description == some p.1).length := by
      unfold availableCount
      rw [← List.countP_eq_length_filter, ← List.countP_eq_length_filter]
      refine List.countP_mono_left fun bs _ h => ?_
      simp only [Bool.and_eq_true] at h
      exact h.1
    have hpos : 0 < p.2 := hcnt ▸ filter_street_length_pos hocc
    refine ⟨hcnt, rfl, ?_, rfl, ?_, ?_, ?_⟩
    · simp only [streetRecordOf]
      rw [hcnt]
      exact havail
    · simp only [streetRecordOf]
      ring
    · have h1 : (availableCount db p.1 : ℤ) ≤ (p.2 : ℤ) := by
        rw [hcnt]
        exact_mod_cast havail
      simp only [streetRecordOf]
      omega
    · simp only [streetRecordOf, if_pos hpos]

/-- C7 counterexample: 51 streets of one bay each.  `/streets` truncates to
the top 50 streets, so the returned totals sum to 50 while the snapshot
has 51 joined rows with a non-null street name. -/
theorem streets_totals_truncation_counterexample :
    ((get_streets_list ⟨(List.range 51).map fun i =>
          ⟨(i : ℤ), 0, 0, none, some (toString i)⟩,
        (List.range 51).map fun i => ⟨(i : ℤ), "Unoccupied", none⟩⟩).2.map
      fun r => r.total_bays).sum = 50 ∧
    ((joinedRows ⟨(List.range 51).map fun i =>
          ⟨(i : ℤ), 0, 0, none, some (toString i)⟩,
        (List.range 51).map fun i => ⟨(i : ℤ), "Unoccupied", none⟩⟩).countP
      fun bs => bs.1.road_segment_description.isSome) = 51 := by
  decide

/-- C7 witness: the aggregation totals evaluated on a three-bay, two-street
snapshot. -/
theorem streets_aggregation_totals_witness :
    ((get_streets_list ⟨[⟨1, 0, 0, none, some "a"⟩, ⟨2, 0, 0, none, some "a"⟩,
          ⟨3, 0, 0, none, some "c"⟩],
        [⟨1, "Occupied", none⟩, ⟨2, "Unoccupied", none⟩, ⟨3, "Unknown", none⟩]⟩).2.map
      fun r => r.total_bays).sum =
      ((joinedRows ⟨[⟨1, 0, 0, none, some "a"⟩, ⟨2, 0, 0, none, some "a"⟩,
          ⟨3, 0, 0, none, some "c"⟩],
        [⟨1, "Occupied", none⟩, ⟨2, "Unoccupied", none⟩, ⟨3, "Unknown", none⟩]⟩).countP
        fun bs => bs.1.road_segment_description.isSome) :=
  (streets_aggregation_totals ⟨[⟨1, 0, 0, none, some "a"⟩, ⟨2, 0, 0, none, some "a"⟩,
      ⟨3, 0, 0, none, some "c"⟩],
    [⟨1, "Occupied", none⟩, ⟨2, "Unoccupied", none⟩, ⟨3, "Unknown", none⟩]⟩
    (by decide)).1

/-- C8 (amended): `/streets` returns its records sorted descending by
`totalBays` and truncated to at most 50 entries only after the full sort:
every street present in the snapshot either appears in the result with its
true bay count, or (when crowded out) its count is at most the count of
every returned street.  The query orders by the count alone; streets with
equal counts keep the deterministic scan order of the snapshot, they are
not re-sorted by name. -/
theorem streets_sorted_truncated (db : Snapshot) :
    List.Pairwise (fun x y : StreetRecord => y.total_bays ≤ x.total_bays)
      (get_streets_list db).2 ∧
    (get_streets_list db).2.length ≤ 50 ∧
    (∀ n : String, (∃ bs ∈ joinedRows db, bs.1.road_segment_description = some n) →
      (∃ rec ∈ (get_streets_list db).2, rec.street_name = n ∧
        rec.total_bays = ((joinedRows db).filter fun bs =>
          bs.1.road_segment_description == some n).length) ∨
      (∀ rec ∈ (get_streets_list db).2,
        ((joinedRows db).filter fun bs =>
          bs.1.road_segment_description == some n).length ≤ rec.total_bays)) := by
  haveI htot : IsTotal (String × ℕ) (fun a b => b.2 ≤ a.2) := ⟨fun a b => le_total b.2 a.2⟩
  haveI htr : IsTrans (String × ℕ) (fun a b => b.2 ≤ a.2) :=
    ⟨fun _ _ _ hab hbc => le_trans hbc hab⟩
  have hPW : List.Pairwise (fun a b : String × ℕ => b.2 ≤ a.2)
      ((((distinctList ((joinedRows db).filterMap fun bs =>
          bs.1.road_segment_description)).map fun n =>
        (n, ((joinedRows db).filter fun bs =>
          bs.1.road_segment_description == some n).length)).insertionSort
        fun a b => b.2 ≤ a.2)) :=
    List.sorted_insertionSort _ _
  have hPWtake : List.Pairwise (fun a b : String × ℕ => b.2 ≤ a.2) (streetsData db) := by
    unfold streetsData
    exact hPW.sublist (List.take_sublist _ _)
  refine ⟨?_, ?_, ?_⟩
  · show List.Pairwise _ ((streetsData db).map (streetRecordOf db))
    rw [List.pairwise_map]
    exact hPWtake
  · show ((streetsData db).map (streetRecordOf db)).length ≤ 50
    rw [List.length_map]
    unfold streetsData
    rw [List.length_take]
    exact min_le_left _ _
  · intro n hocc
    have hn : n ∈ distinctList ((joinedRows db).filterMap fun bs =>
        bs.1.road_segment_description) := streets_name_occurs_iff.mpr hocc
    have hmem : (n, ((joinedRows db).filter fun bs =>
        bs.1.road_segment_description == some n).length) ∈
        ((((distinctList ((joinedRows db).filterMap fun bs =>
            bs.1.road_segment_description)).map fun m =>
          (m, ((joinedRows db).filter fun bs =>
            bs.1.road_segment_description == some m).length)).insertionSort
          fun a b => b.2 ≤ a.2)) := by
      rw [List.mem_insertionSort]
      exact List.mem_map.mpr ⟨n, hn, rfl⟩
    rw [← List.take_append_drop 50 ((((distinctList ((joinedRows db).filterMap fun bs =>
        bs.1.road_segment_description)).map fun m =>
      (m, ((joinedRows db).filter fun bs =>
        bs.1.road_segment_description == some m).length)).insertionSort
      fun a b => b.2 ≤ a.2))] at hmem
    rcases List.mem_append.mp hmem with hmem | hmem
    · left
      have hrecmem : streetRecordOf db (n,
          ((joinedRows db).filter fun bs : ParkingBay × ParkingStatusCurrent =>
            bs.1.road_segment_description == some n).length) ∈
          (get_streets_list db).2 :=
        List.mem_map.mpr ⟨_, hmem, rfl⟩
      exact ⟨_, hrecmem, rfl, rfl⟩
    · right
      intro rec hrec
      obtain ⟨p, hp, rfl⟩ := List.mem_map.mp hrec
      have hPW' := hPW
      rw [← List.take_append_drop 50 ((((distinctList ((joinedRows db).filterMap fun bs =>
          bs.1.road_segment_description)).map fun m =>
        (m, ((joinedRows db).filter fun bs =>
          bs.1.road_segment_description == some m).length)).insertionSort
        fun a b => b.2 ≤ a.2))] at hPW'
    
      obtain ⟨-, -, hcross⟩ := List.pairwise_append.mp hPW'
      exact hcross p hp _ hmem

/-- C8 counterexample: two one-bay streets named "b" and "a", scanned in
that order.  The result keeps the scan order ["b", "a"]; the claimed
tie-break by ascending street name would require ["a", "b"], so the result
violates the claimed order (with `"a" < "b"` in lexicographic character
order). -/
theorem streets_tiebreak_counterexample :
    ((get_streets_list ⟨[⟨1, 0, 0, none, some "b"⟩, ⟨2, 0, 0, none, some "a"⟩],
        [⟨1, "Unoccupied", none⟩, ⟨2, "Occupied", none⟩]⟩).2.map
      fun r => r.street_name) = ["b", "a"] ∧
    ¬ List.Pairwise (fun x y : StreetRecord => y.total_bays < x.total_bays ∨
        (x.total_bays = y.total_bays ∧ x.street_name.data ≤ y.street_name.data))
      (get_streets_list ⟨[⟨1, 0, 0, none, some "b"⟩, ⟨2, 0, 0, none, some "a"⟩],
        [⟨1, "Unoccupied", none⟩, ⟨2, "Occupied", none⟩]⟩).2 := by
  decide

/-- C8 witness: the sort and truncation properties evaluated on the
two-street snapshot, at street "a". -/
theorem streets_sorted_truncated_witness :
    (∃ rec ∈ (get_streets_list ⟨[⟨1, 0, 0, none, some "b"⟩, ⟨2, 0, 0, none, some "a"⟩],
        [⟨1, "Unoccupied", none⟩, ⟨2, "Occupied", none⟩]⟩).2,
      rec.street_name = "a" ∧
      rec.total_bays = ((joinedRows ⟨[⟨1, 0, 0, none, some "b"⟩, ⟨2, 0, 0, none, some "a"⟩],
          [⟨1, "Unoccupied", none⟩, ⟨2, "Occupied", none⟩]⟩).filter fun bs =>
        bs.1.road_segment_description == some "a").length) ∨
    (∀ rec ∈ (get_streets_list ⟨[⟨1, 0, 0, none, some "b"⟩, ⟨2, 0, 0, none, some "a"⟩],
        [⟨1, "Unoccupied", none⟩, ⟨2, "Occupied", none⟩]⟩).2,
      ((joinedRows ⟨[⟨1, 0, 0, none, some "b"⟩, ⟨2, 0, 0, none, some "a"⟩],
          [⟨1, "Unoccupied", none⟩, ⟨2, "Occupied", none⟩]⟩).filter fun bs =>
        bs.1.road_segment_description == some "a").length ≤ rec.total_bays) :=
  (streets_sorted_truncated ⟨[⟨1, 0, 0, none, some "b"⟩, ⟨2, 0, 0, none, some "a"⟩],
    [⟨1, "Unoccupied", none⟩, ⟨2, "Occupied", none⟩]⟩).2.2 "a"
    (⟨(⟨2, 0, 0, none, some "a"⟩, ⟨2, "Occupied", none⟩), by decide, rfl⟩)

/-! ## Lemmas about the distance engine -/

theorem radians_zero : radians 0 = 0 := by
  simp [radians]

theorem atan2_of_pos (y x : ℝ) (hx : 0 < x) : atan2 y x = Real.arctan (y / x) := by
  rw [atan2, if_pos hx]

theorem atan2_zero_pos (x : ℝ) (hx : 0 < x) : atan2 0 x = 0 := by
  rw [atan2_of_pos 0 x hx, zero_div, Real.arctan_zero]

theorem haversineA_self (lat lng : ℝ) : haversineA lat lng lat lng = 0 := by
  rw [haversineA]
  simp [radians_zero]

theorem calculate_distance_self (lat lng : ℝ) :
    calculate_distance lat lng lat lng = 0 := by
  rw [calculate_distance, haversineA_self]
  simp only [Real.sqrt_zero, sub_zero, Real.sqrt_one]
  rw [atan2_zero_pos 1 one_pos]
  ring

theorem atan2_sqrt_eq_arcsin (a : ℝ) (h0 : 0 ≤ a) (h1 : a ≤ 1) :
    atan2 (Real.sqrt a) (Real.sqrt (1 - a)) = Real.arcsin (Real.sqrt a) := by
  rcases lt_or_eq_of_le h1 with hlt | heq
  · have hx : 0 < Real.sqrt (1 - a) := Real.sqrt_pos.mpr (by linarith)
    rw [atan2_of_pos _ _ hx]
    have hmem : Real.sqrt a ∈ Set.Ioo (-1 : ℝ) 1 := by
      constructor
      · have := Real.sqrt_nonneg a
        linarith
      · exact (Real.sqrt_lt' one_pos).mpr (by linarith)
    rw [Real.arcsin_eq_arctan hmem]
    congr 2
    rw [Real.sq_sqrt h0]
  · subst heq
    simp only [sub_self, Real.sqrt_zero, Real.sqrt_one]
    rw [atan2]
    simp only [lt_self_iff_false, if_false]
    rw [if_pos one_pos, Real.arcsin_one]

theorem abs_sin_of_small {u : ℝ} (hu : |u| ≤ Real.pi / 2) :
    |Real.sin u| = Real.sin |u| := by
  have hpi := Real.pi_pos
  rcases le_or_lt 0 u with h | h
  · rw [abs_of_nonneg h, abs_of_nonneg]
    exact Real.sin_nonneg_of_nonneg_of_le_pi h
      (by rw [abs_of_nonneg h] at hu; linarith)
  · have h1 : Real.sin (-u) = -Real.sin u := Real.sin_neg u
    have h2 : 0 ≤ Real.sin (-u) :=
      Real.sin_nonneg_of_nonneg_of_le_pi (by linarith)
        (by rw [abs_of_neg h] at hu; linarith)
    rw [abs_of_neg h, h1]
    exact abs_of_nonpos (by rw [h1] at h2; linarith)

theorem calculate_distance_ge_lat (lat1 lng1 lat2 lng2 : ℝ)
    (h1 : |lat1| ≤ 90) (h2 : |lat2| ≤ 90) :
    6371000 * (Real.pi / 180) * |lat2 - lat1| ≤
      calculate_distance lat1 lng1 lat2 lng2 := by
  have hpi := Real.pi_pos
  have hu_eq : radians (lat2 - lat1) / 2 = (lat2 - lat1) * (Real.pi / 360) := by
    rw [radians]; ring
  have habs_u : |radians (lat2 - lat1) / 2| = |lat2 - lat1| * (Real.pi / 360) := by
    rw [hu_eq, abs_mul, abs_of_pos (by positivity : (0:ℝ) < Real.pi / 360)]
  have hdiff : |lat2 - lat1| ≤ 180 := by
    rcases abs_le.mp h1 with ⟨ha1, ha2⟩
    rcases abs_le.mp h2 with ⟨hb1, hb2⟩
    rw [abs_sub_le_iff]
    constructor <;> linarith
  have hu_small : |radians (lat2 - lat1) / 2| ≤ Real.pi / 2 := by
    rw [habs_u]
    calc |lat2 - lat1| * (Real.pi / 360) ≤ 180 * (Real.pi / 360) := by
          exact mul_le_mul_of_nonneg_right hdiff (by positivity)
      _ = Real.pi / 2 := by ring
  have hcos1 : 0 ≤ Real.cos (radians lat1) := by
    apply Real.cos_nonneg_of_mem_Icc
    constructor
    · rw [radians]
      rcases abs_le.mp h1 with ⟨ha1, -⟩
      calc -(Real.pi / 2) = -90 * Real.pi / 180 := by ring
        _ ≤ lat1 * Real.pi / 180 := by
            apply div_le_div_of_nonneg_right ?_ (by norm_num)
            exact mul_le_mul_of_nonneg_right ha1 hpi.le
    · rw [radians]
      rcases abs_le.mp h1 with ⟨-, ha2⟩
      calc lat1 * Real.pi / 180 ≤ 90 * Real.pi / 180 := by
            apply div_le_div_of_nonneg_right ?_ (by norm_num)
            exact mul_le_mul_of_nonneg_right ha2 hpi.le
        _ = Real.pi / 2 := by ring
  have hcos2 : 0 ≤ Real.cos (radians lat2) := by
    apply Real.cos_nonneg_of_mem_Icc
    constructor
    · rw [radians]
      rcases abs_le.mp h2 with ⟨hb1, -⟩
      calc -(Real.pi / 2) = -90 * Real.pi / 180 := by ring
        _ ≤ lat2 * Real.pi / 180 := by
            apply div_le_div_of_nonneg_right ?_ (by norm_num)
            exact mul_le_mul_of_nonneg_right hb1 hpi.le
    · rw [radians]
      rcases abs_le.mp h2 with ⟨-, hb2⟩
      calc lat2 * Real.pi / 180 ≤ 90 * Real.pi / 180 := by
            apply div_le_div_of_nonneg_right ?_ (by norm_num)
            exact mul_le_mul_of_nonneg_right hb2 hpi.le
        _ = Real.pi / 2 := by ring
  have ha_ge : Real.sin (radians (lat2 - lat1) / 2) * Real.sin (radians (lat2 - lat1) / 2) ≤
      haversineA lat1 lng1 lat2 lng2 := by
    rw [haversineA]
    nlinarith [mul_self_nonneg (Real.sin (radians (lng2 - lng1) / 2)),
      mul_nonneg hcos1 hcos2]
  have hsqrt_ge : |Real.sin (radians (lat2 - lat1) / 2)| ≤
      Real.sqrt (haversineA lat1 lng1 lat2 lng2) := by
    have := Real.sqrt_le_sqrt ha_ge
    rwa [show Real.sin (radians (lat2 - lat1) / 2) *
        Real.sin (radians (lat2 - lat1) / 2) =
        Real.sin (radians (lat2 - lat1) / 2) ^ 2 by ring,
      Real.sqrt_sq_eq_abs] at this
  have hstep : |radians (lat2 - lat1) / 2| ≤
      atan2 (Real.sqrt (haversineA lat1 lng1 lat2 lng2))
        (Real.sqrt (1 - haversineA lat1 lng1 lat2 lng2)) := by
    by_cases hA : haversineA lat1 lng1 lat2 lng2 ≤ 1
    · have h0A : 0 ≤ haversineA lat1 lng1 lat2 lng2 :=
        le_trans (mul_self_nonneg _) ha_ge
      rw [atan2_sqrt_eq_arcsin _ h0A hA]
      have harc : Real.arcsin |Real.sin (radians (lat2 - lat1) / 2)| =
          |radians (lat2 - lat1) / 2| := by
        rw [abs_sin_of_small hu_small]
        exact Real.arcsin_sin (by cases abs_le.mp hu_small with
            | intro hx hy => linarith [abs_nonneg (radians (lat2 - lat1) / 2)])
          (by cases abs_le.mp hu_small with
            | intro hx hy => exact hu_small)
      rw [← harc]
      exact Real.monotone_arcsin hsqrt_ge
    · push_neg at hA
      have hzero : Real.sqrt (1 - haversineA lat1 lng1 lat2 lng2) = 0 :=
        Real.sqrt_eq_zero'.mpr (by linarith)
      have hposA : 0 < Real.sqrt (haversineA lat1 lng1 lat2 lng2) :=
        Real.sqrt_pos.mpr (by linarith)
      rw [hzero, atan2]
      simp only [lt_self_iff_false, if_false, if_pos hposA]
      exact hu_small
  rw [calculate_distance]
  calc 6371000 * (Real.pi / 180) * |lat2 - lat1| =
      6371000 * (2 * |radians (lat2 - lat1) / 2|) := by
        rw [habs_u]; ring
    _ ≤ 6371000 * (2 * atan2 (Real.sqrt (haversineA lat1 lng1 lat2 lng2))
        (Real.sqrt (1 - haversineA lat1 lng1 lat2 lng2))) := by
        have := hstep
        nlinarith

theorem arctan_lt_self {x : ℝ} (hx : 0 < x) : Real.arctan x < x := by
  have h1 : 0 < Real.arctan x := by
    have := Real.arctan_strictMono hx
    rwa [Real.arctan_zero] at this
  have h2 : Real.arctan x < Real.pi / 2 := Real.arctan_lt_pi_div_two x
  have h3 := Real.lt_tan h1 h2
  rwa [Real.tan_arctan] at h3

theorem radians_sixty : radians 60 = Real.pi / 3 := by
  rw [radians]; ring

theorem haversineA_sixty : haversineA 60 0 60 60 = 1 / 16 := by
  rw [haversineA]
  have h0 : (60 : ℝ) - 60 = 0 := by norm_num
  have h60 : (60 : ℝ) - 0 = 60 := by norm_num
  rw [h0, h60, radians_zero, radians_sixty]
  have h6 : Real.pi / 3 / 2 = Real.pi / 6 := by ring
  rw [h6, Real.sin_pi_div_six, Real.cos_pi_div_three]
  norm_num [Real.sin_zero]

theorem calculate_distance_sixty_le :
    calculate_distance 60 0 60 60 ≤ 3300000 := by
  rw [calculate_distance, haversineA_sixty]
  have hq : Real.sqrt (1 / 16) = 1 / 4 := by
    rw [show (1 / 16 : ℝ) = (1 / 4) ^ 2 by norm_num, Real.sqrt_sq (by norm_num)]
  have hq2 : Real.sqrt (1 - 1 / 16) = Real.sqrt 15 * (1 / 4) := by
    rw [show (1 - 1 / 16 : ℝ) = 15 * (1 / 4) ^ 2 by norm_num,
      Real.sqrt_mul (by norm_num : (0:ℝ) ≤ 15), Real.sqrt_sq (by norm_num)]
  have hs15 : (0 : ℝ) < Real.sqrt 15 := Real.sqrt_pos.mpr (by norm_num)
  have hpos : (0 : ℝ) < Real.sqrt 15 * (1 / 4) := by positivity
  rw [hq, hq2, atan2_of_pos _ _ hpos]
  have harg : (1 / 4 : ℝ) / (Real.sqrt 15 * (1 / 4)) = 1 / Real.sqrt 15 := by
    field_simp
  rw [harg]
  have hx : (0 : ℝ) < 1 / Real.sqrt 15 := by positivity
  have harct : Real.arctan (1 / Real.sqrt 15) < 1 / Real.sqrt 15 := arctan_lt_self hx
  have hsle : (12742 / 3300 : ℝ) ≤ Real.sqrt 15 :=
    (Real.le_sqrt (by norm_num) (by norm_num)).mpr (by norm_num)
  have hinv : (1 / Real.sqrt 15 : ℝ) ≤ 3300 / 12742 := by
    rw [div_le_div_iff₀ hs15 (by norm_num : (0:ℝ) < 12742)]
    nlinarith [hsle]
  nlinarith

/-- C1 counterexample: center `(60, 0)`, radius `3,300,000` m, point
`(60, 60)`.  The haversine distance is `12,742,000 * arctan(1 / sqrt 15)
< 12,742,000 / sqrt 15 < 3,300,000`, yet the point's longitude `60`
exceeds the box bound `0 + 3,300,000 / (111,000 * cos(radians 60)) =
3,300,000 / 55,500 < 59.46`: the prefilter loses a point within the
radius, so it is not free of false negatives. -/
theorem bounding_box_counterexample :
    (0 : ℝ) < 3300000 ∧
    calculate_distance 60 0 60 60 ≤ 3300000 ∧
    ¬ nearbyBoxPred 60 0 3300000 60 60 := by
  refine ⟨by norm_num, calculate_distance_sixty_le, ?_⟩
  intro h
  have hlng := h.2.2
  rw [radians_sixty, Real.cos_pi_div_three] at hlng
  norm_num at hlng

/-- C1 (amended): the latitude interval of the prefilter is sound — for
latitudes within `[-90, 90]`, any point within haversine distance `r` of
the center has latitude within `lat ± r / 111000` (one degree of latitude
is `6,371,000 * pi / 180 > 111,000` meters, so the box is slightly
generous).  The longitude interval is not sound in general (see the
counterexample), so the rectangle as a whole can lose points within the
radius. -/
theorem bounding_box_latitude_sound (lat lng radius plat plng : ℝ)
    (h1 : |lat| ≤ 90) (h2 : |plat| ≤ 90)
    (hd : calculate_distance lat lng plat plng ≤ radius) :
    lat - radius / 111000 ≤ plat ∧ plat ≤ lat + radius / 111000 := by
  have hge := calculate_distance_ge_lat lat lng plat plng h1 h2
  have hpi : (3.141592 : ℝ) < Real.pi := Real.pi_gt_d6
  have habs : |plat - lat| ≤ radius / 111000 := by
    have hconst : (111000 : ℝ) ≤ 6371000 * (Real.pi / 180) := by nlinarith
    have h111 : (111000 : ℝ) * |plat - lat| ≤
        6371000 * (Real.pi / 180) * |plat - lat| :=
      mul_le_mul_of_nonneg_right hconst (abs_nonneg _)
    have hle : 111000 * |plat - lat| ≤ radius := le_trans h111 (le_trans hge hd)
    linarith
  rcases abs_le.mp habs with ⟨hl, hr⟩
  constructor <;> linarith

/-- C1 witness: the latitude soundness applied at center `(0, 0)`, radius
500, and the center itself. -/
theorem bounding_box_latitude_sound_witness :
    (0 : ℝ) - 500 / 111000 ≤ 0 ∧ (0 : ℝ) ≤ 0 + 500 / 111000 :=
  bounding_box_latitude_sound 0 0 500 0 0 (by norm_num) (by norm_num)
    (by rw [calculate_distance_self]; norm_num)

/-! ## Claims about the nearest-available search (`/nearby`) -/

theorem nearbyCandidates_nil_of_neg (rows : List (ParkingBay × ParkingStatusCurrent))
    (lat lng radius : ℚ) (hr : radius < 0) :
    nearbyCandidates rows lat lng radius = [] := by
  rw [nearbyCandidates, List.filter_eq_nil_iff]
  intro bs _
  simp only [Bool.and_eq_true, decide_eq_true_eq, not_and]
  intro _
  intro hbox
  have hrR : (radius : ℝ) < 0 := by exact_mod_cast hr
  have h1 := hbox.1.1
  have h2 := hbox.1.2
  have h3 : (radius : ℝ) / 111000 < 0 := div_neg_of_neg_of_pos hrR (by norm_num)
  linarith

/-- C9 (amended): a missing or non-numeric `lat`, `lng`, or a non-numeric
`radius`, raises in `float(...)` and is answered by the `except` handler
as HTTP 500 with an error body — a failure response (no crash), but a
server-error status, not a 4xx client error; an out-of-range numeric value
is not rejected at all: in particular any negative radius yields a
successful HTTP 200 response with an empty list — the same shape as the
valid "zero results" success — rather than an input-error response. -/
theorem nearby_error_behaviour (db : Snapshot) :
    (∀ lngArg radiusArg : FloatArg,
      find_nearby_parking db .missing lngArg radiusArg = (500, .err) ∧
      find_nearby_parking db .malformed lngArg radiusArg = (500, .err)) ∧
    (∀ (lat : ℚ) (radiusArg : FloatArg),
      find_nearby_parking db (.value lat) .missing radiusArg = (500, .err) ∧
      find_nearby_parking db (.value lat) .malformed radiusArg = (500, .err)) ∧
    (∀ lat lng : ℚ,
      find_nearby_parking db (.value lat) (.value lng) .malformed = (500, .err)) ∧
    (∀ lat lng radius : ℚ, radius < 0 →
      find_nearby_parking db (.value lat) (.value lng) (.value radius) =
        (200, .ok [] (lat, lng) radius)) := by
  refine ⟨fun lngArg radiusArg => ⟨rfl, rfl⟩, fun lat radiusArg => ⟨rfl, rfl⟩,
    fun lat lng => rfl, ?_⟩
  intro lat lng radius hr
  show (200, find_nearby_core (joinedRows db) lat lng radius) = _
  rw [find_nearby_core, availableSpaces, nearbyCandidates_nil_of_neg _ _ _ _ hr]
  rfl

/-- C9 counterexample: with a non-positive radius (`-5`) the route answers
HTTP 200 with `success` data — not a 4xx-equivalent client input error —
and with a non-numeric `lat` it answers HTTP 500, a server-error status,
again not a 4xx client error. -/
theorem nearby_error_counterexample :
    find_nearby_parking ⟨[], []⟩ (.value 0) (.value 0) (.value (-5)) =
      (200, .ok [] (0, 0) (-5)) ∧
    find_nearby_parking ⟨[], []⟩ .malformed (.value 0) .missing = (500, .err) :=
  ⟨rfl, rfl⟩

/-- C9 witness: the error behaviour evaluated at a missing `lat` and at a
negative radius on the empty snapshot. -/
theorem nearby_error_behaviour_witness :
    find_nearby_parking ⟨[], []⟩ .missing .missing .missing = (500, .err) ∧
    find_nearby_parking ⟨[], []⟩ (.value 1) (.value 2) (.value (-5)) =
      (200, .ok [] (1, 2) (-5)) :=
  ⟨((nearby_error_behaviour ⟨[], []⟩).1 .missing .missing).1,
    (nearby_error_behaviour ⟨[], []⟩).2.2.2 1 2 (-5) (by norm_num)⟩

/-- C3: every row returned by `/nearby` comes from a joined candidate whose
status is exactly `'Unoccupied'` and whose exact haversine distance from
the query point is at most the radius; in particular a bay with any other
status, or one inside the box but farther than the radius, never appears,
whatever the radius. -/
theorem nearby_rows_unoccupied_within_radius
    (rows : List (ParkingBay × ParkingStatusCurrent)) (lat lng radius : ℚ)
    (rec : NearbyRecord)
    (hmem : rec ∈ (find_nearby_core rows lat lng radius).getData) :
    (∃ bs ∈ rows, bs.2.status_description = "Unoccupied" ∧
      rec.kerbside_id = bs.1.kerbside_id ∧ rec.latitude = bs.1.latitude ∧
      rec.longitude = bs.1.longitude ∧
      rec.distance = pyRound1 (calculate_distance (lat : ℝ) (lng : ℝ)
        (bs.1.latitude : ℝ) (bs.1.longitude : ℝ))) ∧
    calculate_distance (lat : ℝ) (lng : ℝ)
      (rec.latitude : ℝ) (rec.longitude : ℝ) ≤ (radius : ℝ) := by
  have h1 : rec ∈ availableSpaces rows lat lng radius := by
    have h0 : rec ∈ ((availableSpaces rows lat lng radius).insertionSort
        fun a b => a.distance ≤ b.distance).take 20 := hmem
    have := List.mem_of_mem_take h0
    rwa [List.mem_insertionSort] at this
  rw [availableSpaces, List.mem_filterMap] at h1
  obtain ⟨bs, hbs, heq⟩ := h1
  rw [nearbyCandidates, List.mem_filter, Bool.and_eq_true] at hbs
  obtain ⟨hrows, hstatus, -⟩ := hbs
  rw [beq_iff_eq] at hstatus
  by_cases hd : calculate_distance (lat : ℝ) (lng : ℝ)
      (bs.1.latitude : ℝ) (bs.1.longitude : ℝ) ≤ (radius : ℝ)
  · rw [if_pos hd] at heq
    obtain rfl := Option.some_injective _ heq
    exact ⟨⟨bs, hrows, hstatus, rfl, rfl, rfl, rfl⟩, hd⟩
  · rw [if_neg hd] at heq
    exact absurd heq (by simp)

open Classical in
/-- C3 witness: on a snapshot with a single unoccupied bay at the search
center, the returned record is that bay, with status `'Unoccupied'` and
exact distance 0 within the radius 500. -/
theorem nearby_rows_unoccupied_within_radius_witness :
    (∃ bs ∈ joinedRows ⟨[⟨1, 0, 0, none, none⟩], [⟨1, "Unoccupied", none⟩]⟩,
      bs.2.status_description = "Unoccupied" ∧
      ((⟨1, 0, 0, pyRound1 (calculate_distance ((0 : ℚ) : ℝ) ((0 : ℚ) : ℝ) ((0 : ℚ) : ℝ) ((0 : ℚ) : ℝ)), none, none⟩ : NearbyRecord)).kerbside_id = bs.1.kerbside_id ∧
      ((⟨1, 0, 0, pyRound1 (calculate_distance ((0 : ℚ) : ℝ) ((0 : ℚ) : ℝ) ((0 : ℚ) : ℝ) ((0 : ℚ) : ℝ)), none, none⟩ : NearbyRecord)).latitude = bs.1.latitude ∧
      ((⟨1, 0, 0, pyRound1 (calculate_distance ((0 : ℚ) : ℝ) ((0 : ℚ) : ℝ) ((0 : ℚ) : ℝ) ((0 : ℚ) : ℝ)), none, none⟩ : NearbyRecord)).longitude = bs.1.longitude ∧
      ((⟨1, 0, 0, pyRound1 (calculate_distance ((0 : ℚ) : ℝ) ((0 : ℚ) : ℝ) ((0 : ℚ) : ℝ) ((0 : ℚ) : ℝ)), none, none⟩ : NearbyRecord)).distance = pyRound1 (calculate_distance ((0 : ℚ) : ℝ) ((0 : ℚ) : ℝ)
        (bs.1.latitude : ℝ) (bs.1.longitude : ℝ))) ∧
    calculate_distance ((0 : ℚ) : ℝ) ((0 : ℚ) : ℝ)
      (((⟨1, 0, 0, pyRound1 (calculate_distance ((0 : ℚ) : ℝ) ((0 : ℚ) : ℝ) ((0 : ℚ) : ℝ) ((0 : ℚ) : ℝ)), none, none⟩ : NearbyRecord)).latitude : ℝ) (((⟨1, 0, 0, pyRound1 (calculate_distance ((0 : ℚ) : ℝ) ((0 : ℚ) : ℝ) ((0 : ℚ) : ℝ) ((0 : ℚ) : ℝ)), none, none⟩ : NearbyRecord)).longitude : ℝ) ≤ ((500 : ℚ) : ℝ) := by
  have hjoin : joinedRows ⟨[⟨1, 0, 0, none, none⟩], [⟨1, "Unoccupied", none⟩]⟩ =
      [(⟨1, 0, 0, none, none⟩, ⟨1, "Unoccupied", none⟩)] := by decide
  have hbox : nearbyBoxPred ((0 : ℚ) : ℝ) ((0 : ℚ) : ℝ) ((500 : ℚ) : ℝ)
      ((0 : ℚ) : ℝ) ((0 : ℚ) : ℝ) := by
    rw [nearbyBoxPred]
    push_cast
    rw [radians_zero, Real.cos_zero]
    norm_num
  have hd_le : calculate_distance ((0 : ℚ) : ℝ) ((0 : ℚ) : ℝ)
      ((0 : ℚ) : ℝ) ((0 : ℚ) : ℝ) ≤ ((500 : ℚ) : ℝ) := by
    rw [calculate_distance_self]
    push_cast
    norm_num
  have hcand : nearbyCandidates
      (joinedRows ⟨[⟨1, 0, 0, none, none⟩], [⟨1, "Unoccupied", none⟩]⟩) 0 0 500 =
      [(⟨1, 0, 0, none, none⟩, ⟨1, "Unoccupied", none⟩)] := by
    rw [hjoin, nearbyCandidates, List.filter_cons, if_pos, List.filter_nil]
    rw [Bool.and_eq_true]
    refine ⟨rfl, ?_⟩
    rw [decide_eq_true_eq]
    exact hbox
  have hav : availableSpaces
      (joinedRows ⟨[⟨1, 0, 0, none, none⟩], [⟨1, "Unoccupied", none⟩]⟩) 0 0 500 =
      [(⟨1, 0, 0, pyRound1 (calculate_distance ((0 : ℚ) : ℝ) ((0 : ℚ) : ℝ) ((0 : ℚ) : ℝ) ((0 : ℚ) : ℝ)), none, none⟩ : NearbyRecord)] := by
    rw [availableSpaces, hcand, List.filterMap_cons, List.filterMap_nil]
    rw [if_pos hd_le]
  have hmem : (⟨1, 0, 0, pyRound1 (calculate_distance ((0 : ℚ) : ℝ) ((0 : ℚ) : ℝ) ((0 : ℚ) : ℝ) ((0 : ℚ) : ℝ)), none, none⟩ : NearbyRecord) ∈
      (find_nearby_core
        (joinedRows ⟨[⟨1, 0, 0, none, none⟩], [⟨1, "Unoccupied", none⟩]⟩)
        0 0 500).getData := by
    show _ ∈ ((availableSpaces _ 0 0 500).insertionSort
      fun a b => a.distance ≤ b.distance).take 20
    rw [hav]
    exact List.mem_singleton.mpr rfl
  exact nearby_rows_unoccupied_within_radius _ 0 0 500 _ hmem

theorem calculate_distance_meridian (φ : ℝ) (h0 : 0 ≤ φ) (h1 : φ ≤ 90) :
    calculate_distance 0 0 φ 0 = 6371000 * radians φ := by
  have hpi := Real.pi_pos
  have hA : haversineA 0 0 φ 0 =
      Real.sin (radians φ / 2) * Real.sin (radians φ / 2) := by
    rw [haversineA]
    simp [radians_zero]
  have hu_eq : radians φ / 2 = φ * (Real.pi / 360) := by
    rw [radians]; ring
  have hu0 : 0 ≤ radians φ / 2 := by rw [hu_eq]; positivity
  have hu2 : radians φ / 2 < Real.pi / 2 := by
    rw [hu_eq]
    calc φ * (Real.pi / 360) ≤ 90 * (Real.pi / 360) :=
          mul_le_mul_of_nonneg_right h1 (by positivity)
      _ < Real.pi / 2 := by nlinarith
  have hsin0 : 0 ≤ Real.sin (radians φ / 2) :=
    Real.sin_nonneg_of_nonneg_of_le_pi hu0 (by linarith)
  have hcos0 : 0 < Real.cos (radians φ / 2) :=
    Real.cos_pos_of_mem_Ioo ⟨by linarith, hu2⟩
  rw [calculate_distance, hA]
  have hsq : Real.sqrt (Real.sin (radians φ / 2) * Real.sin (radians φ / 2)) =
      Real.sin (radians φ / 2) := by
    rw [show Real.sin (radians φ / 2) * Real.sin (radians φ / 2) =
      Real.sin (radians φ / 2) ^ 2 by ring, Real.sqrt_sq hsin0]
  have hsq2 : Real.sqrt (1 - Real.sin (radians φ / 2) * Real.sin (radians φ / 2)) =
      Real.cos (radians φ / 2) := by
    rw [show (1 : ℝ) - Real.sin (radians φ / 2) * Real.sin (radians φ / 2) =
      Real.cos (radians φ / 2) ^ 2 by
        have := Real.sin_sq_add_cos_sq (radians φ / 2)
        nlinarith, Real.sqrt_sq hcos0.le]
  rw [hsq, hsq2, atan2_of_pos _ _ hcos0, ← Real.tan_eq_sin_div_cos,
    Real.arctan_tan (by linarith) hu2]
  ring

/-- C4 (amended): the `/nearby` result list is sorted ascending by the
stored distance (the exact distance rounded to one decimal); at most the
first 20 entries are returned; and the search center and radius are echoed
back.  Records with equal stored distances keep the deterministic
candidate-scan order of the snapshot (Python's sort is stable and uses
only the distance key): ties are not broken by bay id, and rows whose
exact distances differ but round to the same value are ordered by the
scan, not by the exact distance. -/
theorem nearby_sorted_truncated (rows : List (ParkingBay × ParkingStatusCurrent))
    (lat lng radius : ℚ) :
    List.Pairwise (fun a b : NearbyRecord => a.distance ≤ b.distance)
      (find_nearby_core rows lat lng radius).getData ∧
    (find_nearby_core rows lat lng radius).getData.length ≤ 20 ∧
    find_nearby_core rows lat lng radius =
      NearbyBody.ok ((find_nearby_core rows lat lng radius).getData)
        (lat, lng) radius := by
  haveI : IsTotal NearbyRecord (fun a b => a.distance ≤ b.distance) :=
    ⟨fun a b => le_total a.distance b.distance⟩
  haveI : IsTrans NearbyRecord (fun a b => a.distance ≤ b.distance) :=
    ⟨fun _ _ _ hab hbc => le_trans hab hbc⟩
  refine ⟨?_, ?_, rfl⟩
  · show List.Pairwise _ (((availableSpaces rows lat lng radius).insertionSort
      fun a b => a.distance ≤ b.distance).take 20)
    exact (List.sorted_insertionSort _ _).sublist (List.take_sublist _ _)
  · show (((availableSpaces rows lat lng radius).insertionSort
      fun a b => a.distance ≤ b.distance).take 20).length ≤ 20
    rw [List.length_take]
    exact min_le_left _ _

open Classical in
/-- C4 counterexample: two unoccupied bays at the same position
`(1, 0)`, stored in the snapshot as id 2 before id 1, searched from
`(0, 0)` with radius 200000.  Both rows have the same exact haversine
distance, so the claimed tie-break by ascending bay id would return ids
`[1, 2]`; the code's stable single-key sort keeps the scan order and
returns `[2, 1]`. -/
theorem nearby_tiebreak_counterexample :
    ((find_nearby_core (joinedRows ⟨[⟨2, 1, 0, none, none⟩,
          ⟨1, 1, 0, none, none⟩],
        [⟨2, "Unoccupied", none⟩, ⟨1, "Unoccupied", none⟩]⟩) 0 0 200000).getData.map
      fun r => r.kerbside_id) = [2, 1] ∧
    ((find_nearby_core (joinedRows ⟨[⟨2, 1, 0, none, none⟩,
          ⟨1, 1, 0, none, none⟩],
        [⟨2, "Unoccupied", none⟩, ⟨1, "Unoccupied", none⟩]⟩) 0 0 200000).getData.map
      fun r => (r.latitude, r.longitude)) = [(1, 0), (1, 0)] := by
  have hjoin : joinedRows ⟨[⟨2, 1, 0, none, none⟩, ⟨1, 1, 0, none, none⟩],
      [⟨2, "Unoccupied", none⟩, ⟨1, "Unoccupied", none⟩]⟩ =
      [(⟨2, 1, 0, none, none⟩, ⟨2, "Unoccupied", none⟩),
       (⟨1, 1, 0, none, none⟩, ⟨1, "Unoccupied", none⟩)] := by decide
  have hbox : nearbyBoxPred ((0 : ℚ) : ℝ) ((0 : ℚ) : ℝ) ((200000 : ℚ) : ℝ)
      ((1 : ℚ) : ℝ) ((0 : ℚ) : ℝ) := by
    rw [nearbyBoxPred]
    push_cast
    rw [radians_zero, Real.cos_zero]
    norm_num
  have hd_le : calculate_distance ((0 : ℚ) : ℝ) ((0 : ℚ) : ℝ)
      ((1 : ℚ) : ℝ) ((0 : ℚ) : ℝ) ≤ ((200000 : ℚ) : ℝ) := by
    have hc0 : ((0 : ℚ) : ℝ) = 0 := by norm_num
    have hc1 : ((1 : ℚ) : ℝ) = 1 := by norm_num
    have hc500 : ((200000 : ℚ) : ℝ) = 200000 := by norm_num
    rw [hc0, hc1, hc500, calculate_distance_meridian (1) (by norm_num) (by norm_num),
      radians]
    nlinarith [Real.pi_le_four, Real.pi_pos]
  have hcand : nearbyCandidates (joinedRows ⟨[⟨2, 1, 0, none, none⟩,
        ⟨1, 1, 0, none, none⟩],
      [⟨2, "Unoccupied", none⟩, ⟨1, "Unoccupied", none⟩]⟩) 0 0 200000 =
      [(⟨2, 1, 0, none, none⟩, ⟨2, "Unoccupied", none⟩),
       (⟨1, 1, 0, none, none⟩, ⟨1, "Unoccupied", none⟩)] := by
    rw [hjoin, nearbyCandidates, List.filter_cons, if_pos, List.filter_cons, if_pos,
      List.filter_nil]
    · rw [Bool.and_eq_true]
      refine ⟨rfl, ?_⟩
      rw [decide_eq_true_eq]
      exact hbox
    · rw [Bool.and_eq_true]
      refine ⟨rfl, ?_⟩
      rw [decide_eq_true_eq]
      exact hbox
  have hav : availableSpaces (joinedRows ⟨[⟨2, 1, 0, none, none⟩,
        ⟨1, 1, 0, none, none⟩],
      [⟨2, "Unoccupied", none⟩, ⟨1, "Unoccupied", none⟩]⟩) 0 0 200000 =
      [⟨2, 1, 0, pyRound1 (calculate_distance ((0 : ℚ) : ℝ) ((0 : ℚ) : ℝ)
          ((1 : ℚ) : ℝ) ((0 : ℚ) : ℝ)), none, none⟩,
       ⟨1, 1, 0, pyRound1 (calculate_distance ((0 : ℚ) : ℝ) ((0 : ℚ) : ℝ)
          ((1 : ℚ) : ℝ) ((0 : ℚ) : ℝ)), none, none⟩] := by
    rw [availableSpaces, hcand, List.filterMap_cons, List.filterMap_cons,
      List.filterMap_nil, if_pos hd_le, if_pos hd_le]
  have hsorted : List.Pairwise (fun a b : NearbyRecord => a.distance ≤ b.distance)
      ([⟨2, 1, 0, pyRound1 (calculate_distance ((0 : ℚ) : ℝ) ((0 : ℚ) : ℝ)
          ((1 : ℚ) : ℝ) ((0 : ℚ) : ℝ)), none, none⟩,
        ⟨1, 1, 0, pyRound1 (calculate_distance ((0 : ℚ) : ℝ) ((0 : ℚ) : ℝ)
          ((1 : ℚ) : ℝ) ((0 : ℚ) : ℝ)), none, none⟩] : List NearbyRecord) := by
    refine List.pairwise_cons.mpr ⟨?_, List.pairwise_singleton _ _⟩
    intro b hb
    rw [List.mem_singleton] at hb
    subst hb
    exact le_refl _
  have hdata : (find_nearby_core (joinedRows ⟨[⟨2, 1, 0, none, none⟩,
        ⟨1, 1, 0, none, none⟩],
      [⟨2, "Unoccupied", none⟩, ⟨1, "Unoccupied", none⟩]⟩) 0 0 200000).getData =
      [⟨2, 1, 0, pyRound1 (calculate_distance ((0 : ℚ) : ℝ) ((0 : ℚ) : ℝ)
          ((1 : ℚ) : ℝ) ((0 : ℚ) : ℝ)), none, none⟩,
       ⟨1, 1, 0, pyRound1 (calculate_distance ((0 : ℚ) : ℝ) ((0 : ℚ) : ℝ)
          ((1 : ℚ) : ℝ) ((0 : ℚ) : ℝ)), none, none⟩] := by
    show ((availableSpaces _ 0 0 200000).insertionSort
      fun a b => a.distance ≤ b.distance).take 20 = _
    rw [hav, List.Sorted.insertionSort_eq hsorted]
    rfl
  rw [hdata]
  exact ⟨rfl, rfl⟩
